import Mathlib

/-!
Verification of the OmniCapture NVENC session core
(`NVENCDefs.cpp`, `NVENCParameters.cpp`, `NVENCSession.cpp`).

The C++ code is shallowly embedded: pure helpers become Lean functions on
`Nat` (machine `uint32` arithmetic is reproduced with explicit masks), the
session object becomes an explicit `SessionState` record, and every call into
the vendor runtime is mediated by an oracle environment `NVENCEnv` holding
the statuses and payloads the driver would return.  Each operation of
`FNVENCSession` is translated into a state-passing Lean function over these
oracles, and the spec claims are proved (or refuted) about those functions.
-/

/-! ## NVENC status codes (values as in `FNVENCDefs::StatusToString`) -/

def NV_ENC_SUCCESS : Nat := 0

def NV_ENC_ERR_NO_ENCODE_DEVICE : Nat := 1

def NV_ENC_ERR_UNSUPPORTED_DEVICE : Nat := 2

def NV_ENC_ERR_INVALID_ENCODERDEVICE : Nat := 3

def NV_ENC_ERR_INVALID_DEVICE : Nat := 4

def NV_ENC_ERR_DEVICE_NOT_EXIST : Nat := 5

def NV_ENC_ERR_INVALID_PTR : Nat := 6

def NV_ENC_ERR_INVALID_EVENT : Nat := 7

def NV_ENC_ERR_INVALID_PARAM : Nat := 8

def NV_ENC_ERR_INVALID_CALL : Nat := 9

def NV_ENC_ERR_OUT_OF_MEMORY : Nat := 10

def NV_ENC_ERR_ENCODER_NOT_INITIALIZED : Nat := 11

def NV_ENC_ERR_UNSUPPORTED_PARAM : Nat := 12

def NV_ENC_ERR_LOCK_BUSY : Nat := 13

def NV_ENC_ERR_NOT_ENOUGH_BUFFER : Nat := 14

def NV_ENC_ERR_NEED_MORE_INPUT : Nat := 0x18

/-- `FNVENCDefs::StatusToString`. -/
def StatusToString (StatusCode : Nat) : String :=
  if StatusCode = 0 then "NV_ENC_SUCCESS"
  else if StatusCode = 1 then "NV_ENC_ERR_NO_ENCODE_DEVICE"
  else if StatusCode = 2 then "NV_ENC_ERR_UNSUPPORTED_DEVICE"
  else if StatusCode = 3 then "NV_ENC_ERR_INVALID_ENCODERDEVICE"
  else if StatusCode = 4 then "NV_ENC_ERR_INVALID_DEVICE"
  else if StatusCode = 5 then "NV_ENC_ERR_DEVICE_NOT_EXIST"
  else if StatusCode = 6 then "NV_ENC_ERR_INVALID_PTR"
  else if StatusCode = 7 then "NV_ENC_ERR_INVALID_EVENT"
  else if StatusCode = 8 then "NV_ENC_ERR_INVALID_PARAM"
  else if StatusCode = 9 then "NV_ENC_ERR_INVALID_CALL"
  else if StatusCode = 10 then "NV_ENC_ERR_OUT_OF_MEMORY"
  else if StatusCode = 11 then "NV_ENC_ERR_ENCODER_NOT_INITIALIZED"
  else if StatusCode = 12 then "NV_ENC_ERR_UNSUPPORTED_PARAM"
  else if StatusCode = 13 then "NV_ENC_ERR_LOCK_BUSY"
  else if StatusCode = 14 then "NV_ENC_ERR_NOT_ENOUGH_BUFFER"
  else if StatusCode = 0x18 then "NV_ENC_ERR_NEED_MORE_INPUT"
  else "NVENC_STATUS_" ++ toString StatusCode

/-! ## API version utilities (`NVENCDefs.cpp`) -/

/-- `FNVENCAPIVersion` (major/minor pair, both `uint32` in the source). -/
structure FNVENCAPIVersion where
  Major : Nat := 0
  Minor : Nat := 0
deriving DecidableEq, Repr

/-- `FNVENCDefs::GetMinimumAPIVersion`. -/
def GetMinimumAPIVersion : FNVENCAPIVersion := { Major := 1, Minor := 0 }

/-- `FNVENCDefs::EncodeApiVersion`. -/
def EncodeApiVersion (Version : FNVENCAPIVersion) : Nat :=
  (Version.Major &&& 0xFF) ||| ((Version.Minor &&& 0xFF) <<< 24)

/-- `FNVENCDefs::DecodeApiVersion`. -/
def DecodeApiVersion (EncodedVersion : Nat) : FNVENCAPIVersion :=
  { Major := EncodedVersion &&& 0xFF, Minor := (EncodedVersion >>> 24) &&& 0xFF }

/-- `FNVENCDefs::DecodeRuntimeVersion`. -/
def DecodeRuntimeVersion (RuntimeVersion : Nat) : FNVENCAPIVersion :=
  if RuntimeVersion = 0 then {}
  else if RuntimeVersion > 0x0FFF then DecodeApiVersion RuntimeVersion
  else { Major := (RuntimeVersion >>> 4) &&& 0x0FFF, Minor := RuntimeVersion &&& 0x0F }

/-- `FNVENCDefs::VersionToString` (`"%u.%u"`). -/
def VersionToString (Version : FNVENCAPIVersion) : String :=
  toString Version.Major ++ "." ++ toString Version.Minor

/-- `FNVENCDefs::IsVersionOlder`. -/
def IsVersionOlder (Lhs Rhs : FNVENCAPIVersion) : Bool :=
  if Lhs.Major ≠ Rhs.Major then Lhs.Major < Rhs.Major else Lhs.Minor < Rhs.Minor

/-- `FNVENCDefs::PatchStructVersion`.  All operands are `uint32` in the
source; the bitwise operations only inspect bits 0–31, so the `Nat`
translation agrees with the machine function on every input. -/
def PatchStructVersion (StructVersion ApiVersion : Nat) : Nat :=
  let Flags := StructVersion &&& 0xF0000000
  let StructId := (StructVersion >>> 16) &&& 0x0FFF
  (ApiVersion &&& 0x0FFFFFFF) ||| (StructId <<< 16) ||| Flags

/-! ## Identifier registry (`NVENCDefs.cpp`) -/

/-- Unreal `FGuid`: four unsigned 32-bit components. -/
structure FGuid where
  A : Nat := 0
  B : Nat := 0
  C : Nat := 0
  D : Nat := 0
deriving DecidableEq, Repr

/-- `FGuid::IsValid`: true when any component is nonzero. -/
def FGuid.IsValid (g : FGuid) : Bool := decide (g ≠ {})

def hexChar (n : Nat) : Char :=
  if n < 10 then Char.ofNat (48 + n) else Char.ofNat (55 + n)

def hexDigits : Nat → Nat → List Char
  | 0, _ => []
  | k + 1, n => hexDigits k (n / 16) ++ [hexChar (n % 16)]

/-- `%08X`: eight uppercase hexadecimal digits. -/
def toHex8 (n : Nat) : String := ⟨hexDigits 8 n⟩

/-- `FGuid::ToString` (default `EGuidFormats::Digits`). -/
def FGuid.ToString (g : FGuid) : String :=
  toHex8 g.A ++ toHex8 g.B ++ toHex8 g.C ++ toHex8 g.D

/-- `GuidFromComponents`: the process-wide intern cache, keyed by a 64-bit
key built from the first and fourth components only
(`Key = (uint64(A) << 32) | D`).  The `TMap` is modelled as an association
list threaded through explicitly; the function returns the canonical GUID
together with the updated cache. -/
def GuidFromComponents (Cache : List (Nat × FGuid)) (A B C D : Nat) :
    FGuid × List (Nat × FGuid) :=
  let Key := (A <<< 32) ||| D
  match Cache.lookup Key with
  | some Existing => (Existing, Cache)
  | none => (⟨A, B, C, D⟩, (Key, (⟨A, B, C, D⟩ : FGuid)) :: Cache)

/-! Preset / codec / tuning GUID literals (the header-free fallback branch of
`NVENCDefs.cpp`; the spec states the native-header branch yields identical
values). -/

def PresetDefaultGuid : FGuid := ⟨0x60E4C05A, 0x53334E09, 0x9AB500A3, 0x1E99756F⟩

def PresetP1Guid : FGuid := ⟨0xFC0A8D3E, 0x45F84CF8, 0x80C72988, 0x71590EBF⟩

def PresetP2Guid : FGuid := ⟨0xF581CFB8, 0x88D64381, 0x93F0DF13, 0xF9C27DAB⟩

def PresetP3Guid : FGuid := ⟨0x36850110, 0x3A07441F, 0x94D53670, 0x631F91F6⟩

def PresetP4Guid : FGuid := ⟨0x90A7B826, 0xDF064862, 0xB9D2CD6D, 0x73A08681⟩

def PresetP5Guid : FGuid := ⟨0x21C6E6B4, 0x297A4CBA, 0x998FB6CB, 0xDE72ADE3⟩

def PresetP6Guid : FGuid := ⟨0x8E75C279, 0x62994AB6, 0x83020B21, 0x5A335CF5⟩

def PresetP7Guid : FGuid := ⟨0x84848C12, 0x6F714C13, 0x931B53E2, 0x83F57974⟩

def PresetLowLatencyHighQualityGuid : FGuid := ⟨0xB3D9DC6F, 0x9F9A4FF2, 0xB2EAEF0C, 0xDE24825B⟩

def CodecGuidH264 : FGuid := ⟨0x6BC82762, 0x4E634CA4, 0xAA851E50, 0xF321F6BF⟩

def CodecGuidHEVC : FGuid := ⟨0x790CDC88, 0x45224D7B, 0x9425BDA9, 0x975F7603⟩

inductive ENVENCCodec where
  | H264
  | HEVC
deriving DecidableEq, Repr

/-- `FNVENCDefs::CodecGuid`. -/
def CodecGuid : ENVENCCodec → FGuid
  | ENVENCCodec.HEVC => CodecGuidHEVC
  | ENVENCCodec.H264 => CodecGuidH264

/-- `FNVENCDefs::CodecToString`. -/
def CodecToString : ENVENCCodec → String
  | ENVENCCodec.HEVC => "HEVC"
  | ENVENCCodec.H264 => "H.264"

/-- `FNVENCDefs::PresetGuidToString`: linear reverse lookup with textual
fallback. -/
def PresetGuidToString (Guid : FGuid) : String :=
  if Guid = PresetDefaultGuid then "NV_ENC_PRESET_DEFAULT"
  else if Guid = PresetP1Guid then "NV_ENC_PRESET_P1"
  else if Guid = PresetP2Guid then "NV_ENC_PRESET_P2"
  else if Guid = PresetP3Guid then "NV_ENC_PRESET_P3"
  else if Guid = PresetP4Guid then "NV_ENC_PRESET_P4"
  else if Guid = PresetP5Guid then "NV_ENC_PRESET_P5"
  else if Guid = PresetP6Guid then "NV_ENC_PRESET_P6"
  else if Guid = PresetP7Guid then "NV_ENC_PRESET_P7"
  else if Guid = PresetLowLatencyHighQualityGuid then "NV_ENC_PRESET_LOW_LATENCY_HQ"
  else Guid.ToString

/-! ## Device types and the `Open` candidate list (`NVENCSession.cpp`) -/

def NV_ENC_DEVICE_TYPE_DIRECTX : Nat := 0

def NV_ENC_DEVICE_TYPE_CUDA : Nat := 1

def NV_ENC_DEVICE_TYPE_OPENGL : Nat := 2

/-- `GetDirectX11DeviceType` (header fallback value `0x3`). -/
def DirectX11DeviceType : Nat := 3

/-- The `TryAddCandidate` lambda in `FNVENCSession::Open`: append the
candidate if it is not present already and fewer than 4 entries are used. -/
def TryAddCandidate (Candidates : List Nat) (Candidate : Nat) : List Nat :=
  if Candidate ∈ Candidates then Candidates
  else if Candidates.length < 4 then Candidates ++ [Candidate]
  else Candidates

/-- The device-type candidate list built by `FNVENCSession::Open`
(Windows path). -/
def BuildDeviceTypeCandidates (InDeviceType : Nat) : List Nat :=
  let c : List Nat := []
  let c := if InDeviceType = NV_ENC_DEVICE_TYPE_DIRECTX ∨ InDeviceType = DirectX11DeviceType
    then TryAddCandidate c DirectX11DeviceType else c
  let c := TryAddCandidate c InDeviceType
  if InDeviceType = DirectX11DeviceType then TryAddCandidate c NV_ENC_DEVICE_TYPE_DIRECTX
  else if InDeviceType = NV_ENC_DEVICE_TYPE_DIRECTX then
    TryAddCandidate c NV_ENC_DEVICE_TYPE_DIRECTX
  else c

/-- The `NvEncOpenEncodeSessionEx` retry loop of `FNVENCSession::Open`:
attempt each candidate in order, stop at the first success; returns the
selected candidate (if any) and the status of the last attempt. -/
def openSessionScan (OpenStatus : Nat → Nat) : List Nat → Nat → Option Nat × Nat
  | [], Status => (none, Status)
  | c :: rest, _ =>
    let s := OpenStatus c
    if s = NV_ENC_SUCCESS then (some c, s) else openSessionScan OpenStatus rest s

/-! ## Tuning modes and the preset-query retry ladders -/

/-- `NV_ENC_TUNING_INFO`. -/
inductive NVTuning where
  | undefined
  | highQuality
  | lowLatency
  | ultraLowLatency
  | lossless
deriving DecidableEq, Repr

/-- `ENVENCTuningMode`. -/
inductive ENVENCTuningMode where
  | Automatic
  | HighQuality
  | LowLatency
  | UltraLowLatency
  | Lossless
deriving DecidableEq, Repr

/-- `ToNVTuning`. -/
def ToNVTuning : ENVENCTuningMode → NVTuning
  | ENVENCTuningMode.HighQuality => NVTuning.highQuality
  | ENVENCTuningMode.LowLatency => NVTuning.lowLatency
  | ENVENCTuningMode.UltraLowLatency => NVTuning.ultraLowLatency
  | ENVENCTuningMode.Lossless => NVTuning.lossless
  | ENVENCTuningMode.Automatic => NVTuning.undefined

/-- `FromNVTuning`. -/
def FromNVTuning : NVTuning → ENVENCTuningMode
  | NVTuning.highQuality => ENVENCTuningMode.HighQuality
  | NVTuning.lowLatency => ENVENCTuningMode.LowLatency
  | NVTuning.ultraLowLatency => ENVENCTuningMode.UltraLowLatency
  | NVTuning.lossless => ENVENCTuningMode.Lossless
  | NVTuning.undefined => ENVENCTuningMode.Automatic

/-- The `AddAttempt` lambda in `FNVENCSession::ValidatePresetConfiguration`:
skip `NV_ENC_TUNING_INFO_UNDEFINED` and values already queued. -/
def AddAttempt (TuningAttempts : List NVTuning) (Attempt : NVTuning) : List NVTuning :=
  if Attempt ≠ NVTuning.undefined ∧ Attempt ∉ TuningAttempts
  then TuningAttempts ++ [Attempt] else TuningAttempts

/-- Tuning attempts tried by the extended-query retry in
`ValidatePresetConfiguration` (preferred tuning first, then the `AddAttempt`
calls, then `NV_ENC_TUNING_INFO_UNDEFINED` appended unconditionally). -/
def validationTuningAttempts (PreferredTuning : NVTuning) : List NVTuning :=
  AddAttempt (AddAttempt (AddAttempt (AddAttempt [PreferredTuning]
    NVTuning.lowLatency) NVTuning.highQuality) NVTuning.ultraLowLatency) NVTuning.lossless
    ++ [NVTuning.undefined]

/-- The `AddUniqueTuning` lambda in `FNVENCSession::Initialize`. -/
def AddUniqueTuning (TuningAttempts : List NVTuning) (InTuning : NVTuning) : List NVTuning :=
  if InTuning ∉ TuningAttempts then TuningAttempts ++ [InTuning] else TuningAttempts

/-- Tuning attempts tried by the extended-query retry in
`FNVENCSession::Initialize`. -/
def initializeTuningAttempts (CandidateTuning : NVTuning) : List NVTuning :=
  AddUniqueTuning (AddUniqueTuning (AddUniqueTuning (AddUniqueTuning (AddUniqueTuning
    [CandidateTuning] NVTuning.undefined) NVTuning.highQuality) NVTuning.lowLatency)
    NVTuning.ultraLowLatency) NVTuning.lossless

/-- Ladder as the spec words it (claim C4): the candidate's preferred tuning
first, then undefined → low-latency → high-quality → ultra-low-latency →
lossless, skipping tuning values already tried.  Stated from the spec's
words, for comparison with the two ladders the code implements. -/
def specClaimedTuningAttempts (PreferredTuning : NVTuning) : List NVTuning :=
  AddUniqueTuning (AddUniqueTuning (AddUniqueTuning (AddUniqueTuning (AddUniqueTuning
    [PreferredTuning] NVTuning.undefined) NVTuning.lowLatency) NVTuning.highQuality)
    NVTuning.ultraLowLatency) NVTuning.lossless

/-- The retry loop over `TuningAttempts` shared (in shape) by both preset
query closures: call the extended query for each tuning in order, stopping
at the first success; the resulting status is the last query's status. -/
def runTuningLadder (Query : NVTuning → Nat) : List NVTuning → Nat → Nat
  | [], Status => Status
  | t :: ts, _ =>
    let s := Query t
    if s = NV_ENC_SUCCESS then s else runTuningLadder Query ts s

/-! ## Parameter descriptor and configuration structures -/

/-- `ENVENCBufferFormat`. -/
inductive ENVENCBufferFormat where
  | NV12
  | P010
  | BGRA
deriving DecidableEq, Repr

/-- `NV_ENC_BUFFER_FORMAT` (only the constructors the session uses). -/
inductive NVBufferFormat where
  | NV12
  | YUV420_10BIT
  | ARGB
deriving DecidableEq, Repr

/-- `ToNVFormat`. -/
def ToNVFormat : ENVENCBufferFormat → NVBufferFormat
  | ENVENCBufferFormat.P010 => NVBufferFormat.YUV420_10BIT
  | ENVENCBufferFormat.BGRA => NVBufferFormat.ARGB
  | ENVENCBufferFormat.NV12 => NVBufferFormat.NV12

/-- `NV_ENC_BIT_DEPTH_8` / `NV_ENC_BIT_DEPTH_10` as numeric depths. -/
def ToNVBitDepth : NVBufferFormat → Nat
  | NVBufferFormat.YUV420_10BIT => 10
  | _ => 8

/-- `GetChromaFormatIDC`. -/
def GetChromaFormatIDC : NVBufferFormat → Nat
  | NVBufferFormat.ARGB => 3
  | _ => 1

/-- `ENVENCRateControlMode`. -/
inductive ENVENCRateControlMode where
  | CBR
  | VBR
  | CONSTQP
deriving DecidableEq, Repr

/-- `NV_ENC_PARAMS_RC_MODE` (constructors used by the session). -/
inductive NVRcMode where
  | constqp
  | vbr
  | cbr
deriving DecidableEq, Repr

/-- `ToNVRateControl`. -/
def ToNVRateControl : ENVENCRateControlMode → NVRcMode
  | ENVENCRateControlMode.CONSTQP => NVRcMode.constqp
  | ENVENCRateControlMode.VBR => NVRcMode.vbr
  | ENVENCRateControlMode.CBR => NVRcMode.cbr

/-- `ENVENCMultipassMode`. -/
inductive ENVENCMultipassMode where
  | DISABLED
  | QUARTER
  | FULL
deriving DecidableEq, Repr

/-- `NV_ENC_MULTI_PASS`. -/
inductive NVMultiPass where
  | disabled
  | quarter
  | full
deriving DecidableEq, Repr

/-- `ToNVMultiPass`. -/
def ToNVMultiPass : ENVENCMultipassMode → NVMultiPass
  | ENVENCMultipassMode.QUARTER => NVMultiPass.quarter
  | ENVENCMultipassMode.FULL => NVMultiPass.full
  | ENVENCMultipassMode.DISABLED => NVMultiPass.disabled

/-- `ENVENCPreset`.  Modelled from the spec: the enum lives in the header
`NVENCParameters.h`, which is not under `src/`; the constructors are those
named by `PresetEnumToGuid`, plus `Automatic` for the value that reaches the
`default: return false` branch ("auto" in the debug projection). -/
inductive ENVENCPreset where
  | Automatic
  | Default
  | LowLatencyHighQuality
  | P1
  | P2
  | P3
  | P4
  | P5
  | P6
  | P7
deriving DecidableEq, Repr

/-- `PresetEnumToGuid` (identity of the GUID matters, not its Windows
byte layout, so the round-trip through `ToWindowsGuid` is elided). -/
def PresetEnumToGuid : ENVENCPreset → Option FGuid
  | ENVENCPreset.Default => some PresetDefaultGuid
  | ENVENCPreset.LowLatencyHighQuality => some PresetLowLatencyHighQualityGuid
  | ENVENCPreset.P1 => some PresetP1Guid
  | ENVENCPreset.P2 => some PresetP2Guid
  | ENVENCPreset.P3 => some PresetP3Guid
  | ENVENCPreset.P4 => some PresetP4Guid
  | ENVENCPreset.P5 => some PresetP5Guid
  | ENVENCPreset.P6 => some PresetP6Guid
  | ENVENCPreset.P7 => some PresetP7Guid
  | ENVENCPreset.Automatic => none

/-- `NVENC_INFINITE_GOPLENGTH` (vendor header constant). -/
def NVENC_INFINITE_GOPLENGTH : Nat := 0xFFFFFFFF

/-- `NV_ENC_LEVEL_AUTOSELECT` (vendor header constant). -/
def NV_ENC_LEVEL_AUTOSELECT : Nat := 0

/-- `FNVENCParameters`.  Modelled from the spec: the struct is declared in
`NVENCParameters.h`, which is not under `src/`; the fields are exactly those
the three `.cpp` files access, with defaults per spec §3 (signed QP bounds
with `-1` meaning unset, realized preset/tuning cleared before
initialization). -/
structure FNVENCParameters where
  Codec : ENVENCCodec := ENVENCCodec.H264
  BufferFormat : ENVENCBufferFormat := ENVENCBufferFormat.NV12
  Width : Nat := 0
  Height : Nat := 0
  Framerate : Nat := 0
  TargetBitrate : Nat := 0
  MaxBitrate : Nat := 0
  QPMin : Int := -1
  QPMax : Int := -1
  RateControlMode : ENVENCRateControlMode := ENVENCRateControlMode.CBR
  MultipassMode : ENVENCMultipassMode := ENVENCMultipassMode.DISABLED
  bEnableLookahead : Bool := false
  bEnableAdaptiveQuantization : Bool := false
  bEnableIntraRefresh : Bool := false
  bIntraRefreshOnSceneChange : Bool := false
  GOPLength : Nat := 0
  RequestedPreset : ENVENCPreset := ENVENCPreset.Automatic
  RequestedTuning : ENVENCTuningMode := ENVENCTuningMode.Automatic
  ActivePresetGuid : FGuid := {}
  ActiveTuning : ENVENCTuningMode := ENVENCTuningMode.Automatic
deriving DecidableEq, Repr

/-- `NV_ENC_RC_PARAMS` (the fields the session reads or writes). -/
structure NVEncRcParams where
  rateControlMode : NVRcMode := NVRcMode.cbr
  averageBitRate : Nat := 0
  maxBitRate : Nat := 0
  enableLookahead : Nat := 0
  enableAQ : Nat := 0
  enableTemporalAQ : Nat := 0
  enableInitialRCQP : Nat := 0
  qpInterB : Int := 0
  qpInterP : Int := 0
  qpIntra : Int := 0
  multiPass : NVMultiPass := NVMultiPass.disabled
deriving DecidableEq, Repr

/-- `NV_ENC_PARAMS_FRAME_FIELD_MODE_FRAME` (vendor header constant). -/
def NV_ENC_PARAMS_FRAME_FIELD_MODE_FRAME : Nat := 1

/-- `NV_ENC_MV_PRECISION_QUARTER_PEL` (vendor header constant). -/
def NV_ENC_MV_PRECISION_QUARTER_PEL : Nat := 3

/-- `NV_ENC_H264_PROFILE_MAIN_GUID` (vendor header constant; an opaque
distinct identifier, its byte value is not used by the session logic). -/
def NV_ENC_H264_PROFILE_MAIN_GUID : FGuid := ⟨0x60B5C1D4, 0x67FE4790, 0x94A5C449, 0x3E7D8B6C⟩

/-- `NV_ENC_HEVC_PROFILE_MAIN_GUID` (vendor header constant, opaque). -/
def NV_ENC_HEVC_PROFILE_MAIN_GUID : FGuid := ⟨0xB514C39A, 0xB55B40FA, 0x878FF102, 0x0B10B96E⟩

/-- `NV_ENC_HEVC_PROFILE_MAIN10_GUID` (vendor header constant, opaque). -/
def NV_ENC_HEVC_PROFILE_MAIN10_GUID : FGuid := ⟨0xFA4D2B6C, 0x3A5B411A, 0x8018086A, 0x1A5F5C3E⟩

/-- `ProfileGuidToString` (reverse lookup used only in diagnostics; the
H.264 baseline/high and HEVC FRExT entries are elided since the session
never stores those profile GUIDs). -/
def ProfileGuidToString (g : FGuid) : String :=
  if g = NV_ENC_H264_PROFILE_MAIN_GUID then "NV_ENC_H264_PROFILE_MAIN"
  else if g = NV_ENC_HEVC_PROFILE_MAIN_GUID then "NV_ENC_HEVC_PROFILE_MAIN"
  else if g = NV_ENC_HEVC_PROFILE_MAIN10_GUID then "NV_ENC_HEVC_PROFILE_MAIN10"
  else g.ToString

def hexCharLower (n : Nat) : Char :=
  if n < 10 then Char.ofNat (48 + n) else Char.ofNat (87 + n)

def hexDigitsLower : Nat → Nat → List Char
  | 0, _ => []
  | k + 1, n => hexDigitsLower k (n / 16) ++ [hexCharLower (n % 16)]

/-- `%08x`. -/
def toHex8Lower (n : Nat) : String := ⟨hexDigitsLower 8 n⟩

/-- `%02x`. -/
def toHex2Lower (n : Nat) : String := ⟨hexDigitsLower 2 n⟩

/-- `LevelToString`. -/
def LevelToString (Level : Nat) : String :=
  if Level = NV_ENC_LEVEL_AUTOSELECT then "NV_ENC_LEVEL_AUTOSELECT"
  else "0x" ++ toHex2Lower Level

/-- `NV_ENC_CONFIG` (the fields the session reads or writes; the
`h264Config`/`hevcConfig` union members the session touches are collapsed
into shared `level`/`idrPeriod`/`chromaFormatIDC`/bit-depth fields; the
packed struct-version token fields are elided, their patching is verified
separately via `PatchStructVersion`). -/
structure NVEncConfigModel where
  profileGUID : FGuid := {}
  rcParams : NVEncRcParams := {}
  gopLength : Nat := 0
  frameIntervalP : Int := 0
  frameFieldMode : Nat := 0
  mvPrecision : Nat := 0
  level : Nat := 0
  idrPeriod : Nat := 0
  chromaFormatIDC : Nat := 0
  inputBitDepth : Nat := 0
  outputBitDepth : Nat := 0
deriving DecidableEq, Repr

/-- `NV_ENC_INITIALIZE_PARAMS` (fields the session writes; the
`encodeConfig` pointer aliases `SessionState.EncodeConfig` and the packed
version token is elided as above). -/
structure NVEncInitializeParamsModel where
  encodeGUID : FGuid := {}
  presetGUID : FGuid := {}
  tuningInfo : NVTuning := NVTuning.undefined
  encodeWidth : Nat := 0
  encodeHeight : Nat := 0
  darWidth : Nat := 0
  darHeight : Nat := 0
  frameRateNum : Nat := 0
  frameRateDen : Nat := 0
  enablePTD : Nat := 0
  maxEncodeWidth : Nat := 0
  maxEncodeHeight : Nat := 0
  bufferFormat : NVBufferFormat := NVBufferFormat.NV12
  enableEncodeAsync : Nat := 0
deriving DecidableEq, Repr

/-- Presence of each `NV_ENCODE_API_FUNCTION_LIST` entry point the session
resolves (a zeroed table has every entry absent). -/
structure FunctionListModel where
  nvEncOpenEncodeSessionEx : Bool := false
  nvEncGetEncodePresetConfig : Bool := false
  nvEncGetEncodePresetConfigEx : Bool := false
  nvEncGetEncodePresetGUIDs : Bool := false
  nvEncInitializeEncoder : Bool := false
  nvEncReconfigureEncoder : Bool := false
  nvEncDestroyEncoder : Bool := false
  nvEncGetSequenceParams : Bool := false
  nvEncFlushEncoderQueue : Bool := false
deriving DecidableEq, Repr

/-- `FMemory::Memzero(FunctionList)` / `FunctionList = {}`. -/
def emptyFunctionList : FunctionListModel := {}

/-- The mutable members of `FNVENCSession`. -/
structure SessionState where
  bIsOpen : Bool := false
  bIsInitialised : Bool := false
  Encoder : Option Nat := none
  Device : Option Nat := none
  DeviceType : Nat := NV_ENC_DEVICE_TYPE_DIRECTX
  ApiVersion : Nat := 0
  FunctionList : FunctionListModel := {}
  EncodeConfig : NVEncConfigModel := {}
  InitializeParams : NVEncInitializeParamsModel := {}
  CurrentParameters : FNVENCParameters := {}
  NvBufferFormat : NVBufferFormat := NVBufferFormat.NV12
  LastErrorMessage : String := ""
deriving DecidableEq, Repr

/-- Oracle environment: everything the session observes from the loader,
the vendor runtime and the driver.  Each field corresponds to one boundary
call (or export lookup) in `NVENCSession.cpp`. -/
structure NVENCEnv where
  compileApiVersion : Nat
  loaderLoads : Bool
  nvencHandle : Bool
  maxVersionExport : Bool
  maxVersionStatus : Nat
  runtimeApiVersionRaw : Nat
  hasCreateInstance : Bool
  createInstanceStatus : Nat
  functionList : FunctionListModel
  openSessionStatus : Nat → Nat
  getPresetConfig : Option Nat → FGuid → FGuid → Nat
  getPresetConfigEx : Option Nat → FGuid → FGuid → NVTuning → Nat
  presetConfigPayload : FGuid → NVEncConfigModel
  presetGUIDCountStatus : Nat
  presetGUIDList : List FGuid
  presetGUIDFillStatus : Nat
  initializeEncoderStatus : Nat
  reconfigureStatus : Nat
  destroyEncoderStatus : Nat
  seqParamsQuery : Nat → Nat × Nat

/-! ## `FNVENCSession::ValidatePresetConfiguration` -/

/-- `FValidationPreset`. -/
structure FValidationPreset where
  Guid : FGuid
  PreferredTuning : NVTuning := NVTuning.undefined
  FriendlyName : String := ""
deriving DecidableEq, Repr

/-- The nine `AddValidationPreset` calls. -/
def validationPresets : List FValidationPreset :=
  [⟨PresetDefaultGuid, NVTuning.undefined, "NV_ENC_PRESET_DEFAULT"⟩,
    ⟨PresetLowLatencyHighQualityGuid, NVTuning.lowLatency, "NV_ENC_PRESET_LOW_LATENCY_HQ"⟩,
    ⟨PresetP1Guid, NVTuning.lowLatency, "NV_ENC_PRESET_P1"⟩,
    ⟨PresetP2Guid, NVTuning.lowLatency, "NV_ENC_PRESET_P2"⟩,
    ⟨PresetP3Guid, NVTuning.highQuality, "NV_ENC_PRESET_P3"⟩,
    ⟨PresetP4Guid, NVTuning.highQuality, "NV_ENC_PRESET_P4"⟩,
    ⟨PresetP5Guid, NVTuning.highQuality, "NV_ENC_PRESET_P5"⟩,
    ⟨PresetP6Guid, NVTuning.highQuality, "NV_ENC_PRESET_P6"⟩,
    ⟨PresetP7Guid, NVTuning.lossless, "NV_ENC_PRESET_P7"⟩]

/-- The `QueryPreset` closure of `ValidatePresetConfiguration`: plain query,
then — if it failed and the extended query export exists — the tuning
retry ladder. -/
def queryPresetValidation (env : NVENCEnv) (hasEx : Bool) (cg : FGuid)
    (Handle : Option Nat) (PresetGuid : FGuid) (PreferredTuning : NVTuning) : Nat :=
  let s := env.getPresetConfig Handle cg PresetGuid
  if s ≠ NV_ENC_SUCCESS ∧ hasEx then
    runTuningLadder (fun t => env.getPresetConfigEx Handle cg PresetGuid t)
      (validationTuningAttempts PreferredTuning) s
  else s

/-- The candidate loop of `ValidatePresetConfiguration`: soft-fail (continue)
on invalid-param / unsupported-param / invalid-encoder-device, abort on any
other failure, stop at the first success.  Returns `bValidated` and
`LastPresetStatus`. -/
def validatePresetScan (env : NVENCEnv) (hasEx : Bool) (cg : FGuid)
    (Handle : Option Nat) (bAllowNullFallback : Bool) :
    List FValidationPreset → Nat → Bool × Nat
  | [], LastPresetStatus => (false, LastPresetStatus)
  | p :: rest, _ =>
    let s := queryPresetValidation env hasEx cg Handle p.Guid p.PreferredTuning
    let s := if s ≠ NV_ENC_SUCCESS ∧ bAllowNullFallback ∧
        (s = NV_ENC_ERR_INVALID_PARAM ∨ s = NV_ENC_ERR_INVALID_ENCODERDEVICE) then
        queryPresetValidation env hasEx cg none p.Guid p.PreferredTuning
      else s
    if s = NV_ENC_SUCCESS then (true, s)
    else if s = NV_ENC_ERR_INVALID_PARAM ∨ s = NV_ENC_ERR_UNSUPPORTED_PARAM then
      validatePresetScan env hasEx cg Handle bAllowNullFallback rest s
    else if s = NV_ENC_ERR_INVALID_ENCODERDEVICE then
      validatePresetScan env hasEx cg Handle bAllowNullFallback rest s
    else (false, s)

/-- `FNVENCSession::ValidatePresetConfiguration` (Windows path). -/
def ValidatePresetConfigurationRun (env : NVENCEnv) (s0 : SessionState)
    (Codec : ENVENCCodec) (bAllowNullFallback : Bool) : Bool × SessionState :=
  let s := { s0 with LastErrorMessage := "" }
  if ¬ (s.bIsOpen ∧ s.Encoder.isSome) then
    (false, { s with LastErrorMessage :=
      "Cannot validate NVENC preset configuration – encoder is not open." })
  else if ¬ s.FunctionList.nvEncGetEncodePresetConfig then
    (false, { s with LastErrorMessage :=
      "Required NVENC export 'NvEncGetEncodePresetConfig' is missing." })
  else
    let cg := CodecGuid Codec
    let r := validatePresetScan env s.FunctionList.nvEncGetEncodePresetConfigEx cg
      s.Encoder bAllowNullFallback validationPresets NV_ENC_ERR_NO_ENCODE_DEVICE
    if r.1 then (true, s)
    else if r.2 = NV_ENC_ERR_INVALID_ENCODERDEVICE then
      (false, { s with LastErrorMessage :=
        "NVENC runtime rejected the provided DirectX device (NV_ENC_ERR_INVALID_ENCODERDEVICE). Ensure that a supported NVIDIA GPU and recent drivers are installed. (" ++ StatusToString r.2 ++ ")" })
    else
      (false, { s with LastErrorMessage :=
        "NvEncGetEncodePresetConfig validation failed: " ++ StatusToString r.2 })

/-! ## `FNVENCSession::Initialize` -/

/-- `FPresetCandidate`. -/
structure FPresetCandidate where
  Guid : FGuid
  Tuning : NVTuning := NVTuning.highQuality
  Description : String := ""
deriving DecidableEq, Repr

/-- The `AddCandidate` lambda of `Initialize` (deduplicates by GUID). -/
def AddCandidate (Cands : List FPresetCandidate) (g : FGuid) (t : NVTuning)
    (d : String) : List FPresetCandidate :=
  if Cands.any (fun c => c.Guid = g) then Cands else Cands ++ [⟨g, t, d⟩]

/-- The nine seed `AddCandidate` calls of `Initialize`. -/
def initialPresetCandidates : List FPresetCandidate :=
  AddCandidate (AddCandidate (AddCandidate (AddCandidate (AddCandidate (AddCandidate
    (AddCandidate (AddCandidate (AddCandidate []
      PresetDefaultGuid NVTuning.undefined "NV_ENC_PRESET_DEFAULT")
      PresetLowLatencyHighQualityGuid NVTuning.lowLatency "NV_ENC_PRESET_LOW_LATENCY_HQ")
      PresetP1Guid NVTuning.lowLatency "NV_ENC_PRESET_P1")
      PresetP2Guid NVTuning.lowLatency "NV_ENC_PRESET_P2")
      PresetP3Guid NVTuning.highQuality "NV_ENC_PRESET_P3")
      PresetP4Guid NVTuning.highQuality "NV_ENC_PRESET_P4")
      PresetP5Guid NVTuning.highQuality "NV_ENC_PRESET_P5")
      PresetP6Guid NVTuning.highQuality "NV_ENC_PRESET_P6")
      PresetP7Guid NVTuning.lossless "NV_ENC_PRESET_P7"

/-- `TArray::Swap(0, FoundIndex)`. -/
def swapWithHead (l : List FPresetCandidate) (idx : Nat) : List FPresetCandidate :=
  match l.get? 0, l.get? idx with
  | some a, some b => (l.set 0 b).set idx a
  | _, _ => l

/-- Overwrite the tuning of the candidate at `idx`. -/
def setCandidateTuning (l : List FPresetCandidate) (idx : Nat) (t : NVTuning) :
    List FPresetCandidate :=
  match l.get? idx with
  | some c => l.set idx { c with Tuning := t }
  | none => l

/-- The requested-preset promotion step of `Initialize` (front-insert if the
requested preset is absent, otherwise adopt the requested tuning and swap to
the front; with no requested preset, a requested tuning overwrites the first
candidate's tuning). -/
def promoteRequestedPreset (Cands : List FPresetCandidate)
    (Parameters : FNVENCParameters) : List FPresetCandidate :=
  let RequestedTuning := ToNVTuning Parameters.RequestedTuning
  match PresetEnumToGuid Parameters.RequestedPreset with
  | some RequestedPresetGuid =>
    match Cands.findIdx? (fun c => c.Guid = RequestedPresetGuid) with
    | none =>
      ⟨RequestedPresetGuid, RequestedTuning, PresetGuidToString RequestedPresetGuid⟩ :: Cands
    | some FoundIndex =>
      let Cands := if RequestedTuning ≠ NVTuning.undefined then
          setCandidateTuning Cands FoundIndex RequestedTuning
        else Cands
      if FoundIndex ≠ 0 then swapWithHead Cands FoundIndex else Cands
  | none =>
    if RequestedTuning ≠ NVTuning.undefined ∧ Cands.length > 0 then
      setCandidateTuning Cands 0 RequestedTuning
    else Cands

/-- The `NvEncGetEncodePresetGUIDs` enumeration step of `Initialize` (count
query, then fill query, then dedup-append every runtime GUID with a
high-quality default tuning guess). -/
def appendRuntimePresets (env : NVENCEnv) (fl : FunctionListModel)
    (Cands : List FPresetCandidate) : List FPresetCandidate :=
  if fl.nvEncGetEncodePresetGUIDs then
    if env.presetGUIDCountStatus = NV_ENC_SUCCESS ∧ env.presetGUIDList.length > 0 then
      if env.presetGUIDFillStatus = NV_ENC_SUCCESS then
        env.presetGUIDList.foldl
          (fun acc g => AddCandidate acc g NVTuning.highQuality (PresetGuidToString g)) Cands
      else Cands
    else Cands
  else Cands

/-- The `QueryPresetConfig` closure of `Initialize`. -/
def queryPresetConfigInit (env : NVENCEnv) (hasEx : Bool) (cg : FGuid)
    (Handle : Option Nat) (Candidate : FPresetCandidate) : Nat :=
  let s := env.getPresetConfig Handle cg Candidate.Guid
  if s ≠ NV_ENC_SUCCESS ∧ hasEx then
    runTuningLadder (fun t => env.getPresetConfigEx Handle cg Candidate.Guid t)
      (initializeTuningAttempts Candidate.Tuning) s
  else s

/-- The candidate loop of `Initialize`: retry a failed query without the
encoder handle on invalid-param / invalid-encoder-device, select the first
success, abort the scan when the (post-retry) status is
invalid-encoder-device, and otherwise continue with the next candidate. -/
def initializePresetScan (env : NVENCEnv) (hasEx : Bool) (cg : FGuid)
    (Handle : Option Nat) : List FPresetCandidate → Nat → Option FPresetCandidate × Nat
  | [], LastPresetStatus => (none, LastPresetStatus)
  | c :: rest, _ =>
    let s := queryPresetConfigInit env hasEx cg Handle c
    let s := if (s = NV_ENC_ERR_INVALID_PARAM ∨ s = NV_ENC_ERR_INVALID_ENCODERDEVICE)
        ∧ Handle.isSome then
        queryPresetConfigInit env hasEx cg none c
      else s
    if s = NV_ENC_SUCCESS then (some c, s)
    else if s = NV_ENC_ERR_INVALID_ENCODERDEVICE then (none, s)
    else initializePresetScan env hasEx cg Handle rest s

/-- `Candidate.Description.IsEmpty() ? PresetGuidToString(...) : Description`. -/
def selectedPresetName (c : FPresetCandidate) : String :=
  if c.Description = "" then PresetGuidToString c.Guid else c.Description

/-- `FNVENCSession::Initialize` (Windows path).  The two buffer-format
compatibility branches both downgrade to NV12, so the adjustment condition
is computed once. -/
def InitializeRun (env : NVENCEnv) (s0 : SessionState)
    (Parameters : FNVENCParameters) : Bool × SessionState :=
  let s := { s0 with LastErrorMessage := "" }
  if ¬ (s.bIsOpen ∧ s.Encoder.isSome) then
    (false, { s with LastErrorMessage :=
      "Cannot initialise NVENC session – encoder is not open." })
  else if ¬ s.FunctionList.nvEncGetEncodePresetConfig then
    (false, { s with LastErrorMessage :=
      "Required NVENC export 'NvEncGetEncodePresetConfig' is missing." })
  else if ¬ s.FunctionList.nvEncInitializeEncoder then
    (false, { s with LastErrorMessage :=
      "Required NVENC export 'NvEncInitializeEncoder' is missing." })
  else
    let cg := CodecGuid Parameters.Codec
    let Cands := appendRuntimePresets env s.FunctionList
      (promoteRequestedPreset initialPresetCandidates Parameters)
    let scan := initializePresetScan env s.FunctionList.nvEncGetEncodePresetConfigEx cg
      s.Encoder Cands NV_ENC_SUCCESS
    match scan.1 with
    | none =>
      if scan.2 = NV_ENC_ERR_INVALID_ENCODERDEVICE then
        (false, { s with LastErrorMessage :=
          "NVENC runtime rejected the provided DirectX device (NV_ENC_ERR_INVALID_ENCODERDEVICE). Ensure that a supported NVIDIA GPU and recent drivers are installed. (" ++ StatusToString scan.2 ++ ")" })
      else
        (false, { s with LastErrorMessage :=
          "NvEncGetEncodePresetConfig failed for all attempted presets: " ++ StatusToString scan.2 })
    | some SelectedPreset =>
      let cfg0 := env.presetConfigPayload SelectedPreset.Guid
      let rc := { cfg0.rcParams with
        rateControlMode := ToNVRateControl Parameters.RateControlMode
        averageBitRate := Parameters.TargetBitrate
        maxBitRate := Parameters.MaxBitrate
        enableLookahead := if Parameters.bEnableLookahead then 1 else 0
        enableAQ := if Parameters.bEnableAdaptiveQuantization then 1 else 0
        enableTemporalAQ := if Parameters.bEnableAdaptiveQuantization then 1 else 0
        enableInitialRCQP := if Parameters.QPMax ≥ 0 ∨ Parameters.QPMin ≥ 0 then 1 else 0
        qpInterB := if Parameters.QPMax ≥ 0 then Parameters.QPMax else cfg0.rcParams.qpInterB
        qpInterP := if Parameters.QPMax ≥ 0 then Parameters.QPMax else cfg0.rcParams.qpInterP
        qpIntra := if Parameters.QPMin ≥ 0 then Parameters.QPMin else cfg0.rcParams.qpIntra
        multiPass := ToNVMultiPass Parameters.MultipassMode }
      let gop := if Parameters.GOPLength = 0 then NVENC_INFINITE_GOPLENGTH else Parameters.GOPLength
      let cfg := { cfg0 with
        rcParams := rc
        gopLength := gop
        frameIntervalP := 1
        frameFieldMode := NV_ENC_PARAMS_FRAME_FIELD_MODE_FRAME
        mvPrecision := NV_ENC_MV_PRECISION_QUARTER_PEL }
      let cfg := if Parameters.Codec = ENVENCCodec.H264 then
          { cfg with profileGUID := NV_ENC_H264_PROFILE_MAIN_GUID, idrPeriod := cfg.gopLength }
        else cfg
      let adjusted : Bool :=
        (Parameters.Codec = ENVENCCodec.H264 ∧ Parameters.BufferFormat ≠ ENVENCBufferFormat.NV12)
        ∨ (Parameters.Codec = ENVENCCodec.HEVC ∧ Parameters.BufferFormat = ENVENCBufferFormat.BGRA)
      let EffectiveBufferFormat :=
        if adjusted then ENVENCBufferFormat.NV12 else Parameters.BufferFormat
      let nvFmt := if adjusted then NVBufferFormat.NV12 else ToNVFormat Parameters.BufferFormat
      let NvBitDepth := ToNVBitDepth nvFmt
      let NvChromaFormat := GetChromaFormatIDC nvFmt
      let cfg := if Parameters.Codec = ENVENCCodec.H264 then
          { cfg with
            chromaFormatIDC := NvChromaFormat
            inputBitDepth := NvBitDepth
            outputBitDepth := NvBitDepth }
        else
          { cfg with
            profileGUID := if NvBitDepth = 10 then NV_ENC_HEVC_PROFILE_MAIN10_GUID
              else NV_ENC_HEVC_PROFILE_MAIN_GUID
            level := NV_ENC_LEVEL_AUTOSELECT
            chromaFormatIDC := NvChromaFormat
            inputBitDepth := NvBitDepth
            outputBitDepth := NvBitDepth
            idrPeriod := cfg.gopLength }
      let ip : NVEncInitializeParamsModel := {
        encodeGUID := cg
        presetGUID := SelectedPreset.Guid
        tuningInfo := SelectedPreset.Tuning
        encodeWidth := Parameters.Width
        encodeHeight := Parameters.Height
        darWidth := Parameters.Width
        darHeight := Parameters.Height
        frameRateNum := if Parameters.Framerate = 0 then 60 else Parameters.Framerate
        frameRateDen := 1
        enablePTD := 1
        maxEncodeWidth := Parameters.Width
        maxEncodeHeight := Parameters.Height
        bufferFormat := nvFmt
        enableEncodeAsync := 0 }
      let s := { s with EncodeConfig := cfg, InitializeParams := ip, NvBufferFormat := nvFmt }
      if env.initializeEncoderStatus ≠ NV_ENC_SUCCESS then
        (false, { s with LastErrorMessage :=
          "NvEncInitializeEncoder failed: " ++ (StatusToString env.initializeEncoderStatus
          ++ " (Codec=" ++ CodecToString Parameters.Codec
          ++ ", Preset=" ++ selectedPresetName SelectedPreset
          ++ ", Profile=" ++ ProfileGuidToString cfg.profileGUID
          ++ ", Level=" ++ LevelToString cfg.level
          ++ ", API runtime=" ++ VersionToString (DecodeApiVersion s.ApiVersion)
          ++ " (0x" ++ toHex8Lower s.ApiVersion
          ++ "), API build=" ++ VersionToString (DecodeApiVersion env.compileApiVersion)
          ++ " (0x" ++ toHex8Lower env.compileApiVersion ++ "))") })
      else
        (true, { s with
          CurrentParameters := { Parameters with
            BufferFormat := EffectiveBufferFormat
            ActivePresetGuid := SelectedPreset.Guid
            ActiveTuning := FromNVTuning SelectedPreset.Tuning }
          bIsInitialised := true })

/-! ## `FNVENCSession::Destroy`, `Reconfigure`, `GetSequenceParams`, `Open` -/

/-- `FNVENCSession::Destroy` (Windows path).  The status returned by
`NvEncDestroyEncoder` is logged and otherwise ignored, so the model never
reads `env.destroyEncoderStatus`. -/
def DestroyRun (env : NVENCEnv) (s : SessionState) : SessionState :=
  if ¬ s.bIsOpen then s
  else
    { s with
      Encoder := none
      Device := none
      bIsInitialised := false
      bIsOpen := false
      FunctionList := emptyFunctionList
      CurrentParameters := {}
      ApiVersion := env.compileApiVersion }

/-- `FNVENCSession::Reconfigure` (Windows path).  `forceIDR` and
`resetEncoder` are set on the transient `NV_ENC_RECONFIGURE_PARAMS` and are
not session state, so they do not appear here. -/
def ReconfigureRun (env : NVENCEnv) (s0 : SessionState)
    (Parameters : FNVENCParameters) : Bool × SessionState :=
  let s := { s0 with LastErrorMessage := "" }
  if ¬ s.bIsInitialised then
    (false, { s with LastErrorMessage :=
      "Cannot reconfigure NVENC session – encoder has not been initialised." })
  else if ¬ s.FunctionList.nvEncReconfigureEncoder then
    (false, { s with LastErrorMessage :=
      "Required NVENC export 'NvEncReconfigureEncoder' is missing." })
  else
    let NewConfig := { s.EncodeConfig with
      rcParams := { s.EncodeConfig.rcParams with
        rateControlMode := ToNVRateControl Parameters.RateControlMode
        averageBitRate := Parameters.TargetBitrate
        maxBitRate := Parameters.MaxBitrate
        enableLookahead := if Parameters.bEnableLookahead then 1 else 0
        enableAQ := if Parameters.bEnableAdaptiveQuantization then 1 else 0
        enableTemporalAQ := if Parameters.bEnableAdaptiveQuantization then 1 else 0
        multiPass := ToNVMultiPass Parameters.MultipassMode }
      gopLength := if Parameters.GOPLength = 0 then NVENC_INFINITE_GOPLENGTH
        else Parameters.GOPLength }
    let ReInit := { s.InitializeParams with
      encodeWidth := Parameters.Width
      encodeHeight := Parameters.Height
      darWidth := Parameters.Width
      darHeight := Parameters.Height
      maxEncodeWidth := Parameters.Width
      maxEncodeHeight := Parameters.Height
      bufferFormat := s.NvBufferFormat }
    if env.reconfigureStatus ≠ NV_ENC_SUCCESS then
      (false, { s with LastErrorMessage :=
        "NvEncReconfigureEncoder failed: " ++ StatusToString env.reconfigureStatus })
    else
      let PreviousPresetGuid := s.CurrentParameters.ActivePresetGuid
      let PreviousTuning := s.CurrentParameters.ActiveTuning
      let cur := Parameters
      let cur := if ¬ cur.ActivePresetGuid.IsValid then
          { cur with ActivePresetGuid := PreviousPresetGuid } else cur
      let cur := if cur.ActiveTuning = ENVENCTuningMode.Automatic then
          { cur with ActiveTuning := PreviousTuning } else cur
      (true, { s with
        EncodeConfig := NewConfig
        InitializeParams := ReInit
        CurrentParameters := cur })

/-- Outcome of `FNVENCSession::GetSequenceParams`: the boolean result, the
length of the returned byte array, and the `inBufferSize` of each call made
to the device (the trace that counts resizes/retries). -/
structure FSeqParamsResult where
  ok : Bool := false
  outLength : Nat := 0
  buffersTried : List Nat := []
deriving DecidableEq, Repr

/-- `FNVENCSession::GetSequenceParams` (Windows path).  Note the function
never touches `LastErrorMessage`; the session state is returned unchanged. -/
def GetSequenceParamsRun (env : NVENCEnv) (s : SessionState) :
    FSeqParamsResult × SessionState :=
  if ¬ (s.bIsInitialised ∧ s.Encoder.isSome) then ({}, s)
  else if ¬ s.FunctionList.nvEncGetSequenceParams then ({}, s)
  else
    let q1 := env.seqParamsQuery 1024
    if q1.1 ≠ NV_ENC_SUCCESS then ({ buffersTried := [1024] }, s)
    else if q1.2 = 0 then ({ buffersTried := [1024] }, s)
    else if q1.2 > 1024 then
      let q2 := env.seqParamsQuery q1.2
      if q2.1 ≠ NV_ENC_SUCCESS then ({ buffersTried := [1024, q1.2] }, s)
      else ({ ok := true, outLength := min q2.2 q1.2, buffersTried := [1024, q1.2] }, s)
    else ({ ok := true, outLength := q1.2, buffersTried := [1024] }, s)

/-- The version-negotiation block of `Open` (`ApiVersion` start value,
optional `NvEncodeAPIGetMaxSupportedVersion` query, downgrade decision):
returns the negotiated version and the `ApiVersion` member value adopted. -/
def negotiatedApiVersion (env : NVENCEnv) : FNVENCAPIVersion × Nat :=
  let compile := DecodeApiVersion env.compileApiVersion
  if env.nvencHandle ∧ env.maxVersionExport ∧ env.maxVersionStatus = NV_ENC_SUCCESS
      ∧ env.runtimeApiVersionRaw ≠ 0 then
    let rt := DecodeRuntimeVersion env.runtimeApiVersionRaw
    if rt.Major ≠ 0 ∨ rt.Minor ≠ 0 then
      if IsVersionOlder rt compile then (rt, EncodeApiVersion rt)
      else (compile, env.compileApiVersion)
    else (compile, env.compileApiVersion)
  else (compile, env.compileApiVersion)

/-- The whole version-negotiation phase of `Open` including the
minimum-version floor check: `none` exactly when negotiation fails
(the one unrecoverable version outcome), otherwise the adopted
`ApiVersion`. -/
def versionNegotiationPhase (env : NVENCEnv) : Option Nat :=
  let nego := negotiatedApiVersion env
  if IsVersionOlder nego.1 GetMinimumAPIVersion then none else some nego.2

/-- `FNVENCSession::Open` (Windows path). -/
def OpenRun (env : NVENCEnv) (s0 : SessionState) (Codec : ENVENCCodec)
    (InDevice : Option Nat) (InDeviceType : Nat) : Bool × SessionState :=
  let s := { s0 with LastErrorMessage := "" }
  if s.bIsOpen then (true, s)
  else if InDevice = none then
    (false, { s with LastErrorMessage :=
      "Failed to open NVENC session – no encoder device was provided." })
  else if ¬ env.loaderLoads then
    (false, { s with LastErrorMessage :=
      "Failed to open NVENC session – NVENC runtime is unavailable." })
  else
    let nego := negotiatedApiVersion env
    let s := { s with ApiVersion := nego.2 }
    if IsVersionOlder nego.1 GetMinimumAPIVersion then
      (false, { s with LastErrorMessage :=
        "NVENC runtime API version is below the minimum supported version." })
    else if ¬ env.hasCreateInstance then
      (false, { s with LastErrorMessage :=
        "Required NVENC export 'NvEncodeAPICreateInstance' is missing." })
    else
      let s := { s with FunctionList := emptyFunctionList }
      if env.createInstanceStatus ≠ NV_ENC_SUCCESS then
        (false, { s with LastErrorMessage :=
          "NvEncodeAPICreateInstance failed: " ++ StatusToString env.createInstanceStatus })
      else
        let s := { s with FunctionList := env.functionList }
        if ¬ s.FunctionList.nvEncOpenEncodeSessionEx then
          (false, { s with LastErrorMessage :=
            "Required NVENC export 'NvEncOpenEncodeSessionEx' is missing." })
        else
          let scan := openSessionScan env.openSessionStatus
            (BuildDeviceTypeCandidates InDeviceType) NV_ENC_ERR_INVALID_PARAM
          match scan.1 with
          | none =>
            (false, { s with LastErrorMessage :=
              "NvEncOpenEncodeSessionEx failed: " ++ StatusToString scan.2 })
          | some SelectedDeviceType =>
            let s := { s with
              Encoder := some 0
              Device := InDevice
              DeviceType := SelectedDeviceType
              CurrentParameters := { s.CurrentParameters with Codec := Codec }
              bIsOpen := true
              LastErrorMessage := "" }
            let v := ValidatePresetConfigurationRun env s Codec false
            if v.1 then (true, v.2)
            else (false, DestroyRun env v.2)

/-! ## Concrete fixtures used by witnesses -/

/-- A function table with every export the session requires present. -/
def fullFunctionList : FunctionListModel :=
  { nvEncOpenEncodeSessionEx := true
    nvEncGetEncodePresetConfig := true
    nvEncGetEncodePresetConfigEx := false
    nvEncGetEncodePresetGUIDs := false
    nvEncInitializeEncoder := true
    nvEncReconfigureEncoder := true
    nvEncDestroyEncoder := true
    nvEncGetSequenceParams := true
    nvEncFlushEncoderQueue := false }

/-- A benign driver: compile-time version 12.0, no runtime version query,
every boundary call succeeds. -/
def benignEnv : NVENCEnv :=
  { compileApiVersion := 0x0000000C
    loaderLoads := true
    nvencHandle := true
    maxVersionExport := false
    maxVersionStatus := 0
    runtimeApiVersionRaw := 0
    hasCreateInstance := true
    createInstanceStatus := 0
    functionList := fullFunctionList
    openSessionStatus := fun _ => 0
    getPresetConfig := fun _ _ _ => 0
    getPresetConfigEx := fun _ _ _ _ => 0
    presetConfigPayload := fun _ => {}
    presetGUIDCountStatus := 0
    presetGUIDList := []
    presetGUIDFillStatus := 0
    initializeEncoderStatus := 0
    reconfigureStatus := 0
    destroyEncoderStatus := 0
    seqParamsQuery := fun _ => (0, 100) }

/-- An open (not yet initialised) session over `fullFunctionList`. -/
def openSessionState : SessionState :=
  { bIsOpen := true, Encoder := some 0, FunctionList := fullFunctionList, ApiVersion := 0xC }

/-- An initialised session. -/
def initialisedSessionState : SessionState :=
  { openSessionState with bIsInitialised := true }

/-- A driver that answers `NV_ENC_ERR_INVALID_ENCODERDEVICE` for the default
preset (with or without an encoder handle) and succeeds for every other
preset. -/
def invalidDefaultPresetEnv : NVENCEnv :=
  { benignEnv with getPresetConfig := fun _ _ pg =>
      if pg = PresetDefaultGuid then NV_ENC_ERR_INVALID_ENCODERDEVICE else NV_ENC_SUCCESS }

/-- A runtime that reports legacy-encoded version `0xC`, which decodes to
0.12 and forces a downgrade below the 1.0 floor. -/
def lowVersionEnv : NVENCEnv :=
  { benignEnv with maxVersionExport := true, runtimeApiVersionRaw := 0xC }

/-- A device that accepts only the plain DirectX tag, not the DirectX11
tag. -/
def directXOnlyEnv : NVENCEnv :=
  { benignEnv with openSessionStatus := fun t =>
      if t = NV_ENC_DEVICE_TYPE_DIRECTX then NV_ENC_SUCCESS else NV_ENC_ERR_INVALID_PARAM }

/-- A device whose sequence-parameter payload needs 2000 bytes. -/
def largeSeqParamsEnv : NVENCEnv :=
  { benignEnv with seqParamsQuery := fun _ => (0, 2000) }

/-! ### Bit-level characterisation of `PatchStructVersion` -/

theorem mask28_testBit (i : Nat) : (0x0FFFFFFF : Nat).testBit i = decide (i < 28) := by
  have h : (0x0FFFFFFF : Nat) = 2 ^ 28 - 1 := by norm_num
  rw [h, Nat.testBit_two_pow_sub_one]

theorem mask12_testBit (i : Nat) : (0x0FFF : Nat).testBit i = decide (i < 12) := by
  have h : (0x0FFF : Nat) = 2 ^ 12 - 1 := by norm_num
  rw [h, Nat.testBit_two_pow_sub_one]

theorem maskTop_testBit (i : Nat) :
    (0xF0000000 : Nat).testBit i = (decide (28 ≤ i) && decide (i < 32)) := by
  have h : (0xF0000000 : Nat) = (2 ^ 4 - 1) <<< 28 := by norm_num [Nat.shiftLeft_eq]
  rw [h, Nat.testBit_shiftLeft, Nat.testBit_two_pow_sub_one]
  by_cases h28 : 28 ≤ i
  · have : i - 28 < 4 ↔ i < 32 := by omega
    simp [h28, this]
  · simp [h28]

theorem patchStructVersion_testBit (t v i : Nat) :
    (PatchStructVersion t v).testBit i =
      ((v.testBit i && decide (i < 28)) ||
        (t.testBit i && (decide (16 ≤ i) && decide (i < 28))) ||
        (t.testBit i && (decide (28 ≤ i) && decide (i < 32)))) := by
  unfold PatchStructVersion
  simp only [Nat.testBit_or, Nat.testBit_and, Nat.testBit_shiftLeft, Nat.testBit_shiftRight,
    mask28_testBit, mask12_testBit, maskTop_testBit]
  by_cases h16 : 16 ≤ i
  · have hadd : 16 + (i - 16) = i := by omega
    have hlt : i - 16 < 12 ↔ i < 28 := by omega
    by_cases h28 : i < 28 <;> cases ht : t.testBit i <;> cases hv : v.testBit i <;>
      simp [h16, hadd, hlt, h28, ht, hv]
  · have h28 : i < 28 := by omega
    have h28n : ¬ 28 ≤ i := by omega
    simp [h16, h28, h28n]

theorem patchStructVersion_flags (t v : Nat) :
    PatchStructVersion t v &&& 0xF0000000 = t &&& 0xF0000000 := by
  apply Nat.eq_of_testBit_eq
  intro i
  simp only [Nat.testBit_and, maskTop_testBit, patchStructVersion_testBit]
  by_cases h28 : 28 ≤ i <;> by_cases h32 : i < 32 <;>
    cases ht : t.testBit i <;> cases hv : v.testBit i <;>
      simp [h28, h32]

theorem patchStructVersion_structId (t v : Nat) :
    (PatchStructVersion t v >>> 16) &&& 0x0FFF =
      ((t >>> 16) &&& 0x0FFF) ||| ((v >>> 16) &&& 0x0FFF) := by
  apply Nat.eq_of_testBit_eq
  intro i
  simp only [Nat.testBit_or, Nat.testBit_and, Nat.testBit_shiftRight, mask12_testBit,
    patchStructVersion_testBit]
  by_cases h12 : i < 12
  · have h16 : 16 ≤ 16 + i := by omega
    have h28 : 16 + i < 28 := by omega
    have h28n : ¬ 28 ≤ 16 + i := by omega
    cases ht : t.testBit (16 + i) <;> cases hv : v.testBit (16 + i) <;>
      simp [h12, h16, h28, h28n]
  · simp [h12]

theorem patchStructVersion_idem (t v : Nat) :
    PatchStructVersion (PatchStructVersion t v) v = PatchStructVersion t v := by
  apply Nat.eq_of_testBit_eq
  intro i
  simp only [patchStructVersion_testBit]
  by_cases h16 : 16 ≤ i <;> by_cases h28 : i < 28 <;> by_cases h32 : i < 32 <;>
    cases ht : t.testBit i <;> cases hv : v.testBit i <;>
      simp [h16, h28, h32]

/-! ## Claim C2: `PatchStructVersion` idempotence and field preservation -/

/-- C2, counterexample: with token `0` and api-version value `0x10000`
(bit 16 set), the patched token's struct-id field (bits 16–27) differs from
the input token's, refuting the claim's "same struct-id field … for every
32-bit api-version value". -/
theorem patchStructVersion_structId_counterexample :
    ¬ ((PatchStructVersion 0 0x10000 >>> 16) &&& 0x0FFF =
        (((0 : Nat)) >>> 16) &&& 0x0FFF) := by
  decide

/-- C2 (amended): `PatchStructVersion` is idempotent and preserves the flag
bits (top 4) of the token for every api-version value; the struct-id field
(bits 16–27) is preserved provided the api-version value has no bits in the
struct-id range (in general the result's struct-id is the bitwise-or of the
token's struct-id and bits 16–27 of the api-version value). -/
theorem patchStructVersion_spec (t v : Nat) :
    PatchStructVersion (PatchStructVersion t v) v = PatchStructVersion t v ∧
    PatchStructVersion t v &&& 0xF0000000 = t &&& 0xF0000000 ∧
    ((v >>> 16) &&& 0x0FFF = 0 →
      (PatchStructVersion t v >>> 16) &&& 0x0FFF = (t >>> 16) &&& 0x0FFF) := by
  refine ⟨patchStructVersion_idem t v, patchStructVersion_flags t v, fun hv => ?_⟩
  rw [patchStructVersion_structId, hv]
  simp

/-- C2 witness: the amended statement evaluated at token `0xF0011234` and
api-version `0x1000000C` (whose bits 16–27 are clear). -/
theorem patchStructVersion_spec_witness :
    PatchStructVersion (PatchStructVersion 0xF0011234 0x1000000C) 0x1000000C
        = PatchStructVersion 0xF0011234 0x1000000C ∧
    PatchStructVersion 0xF0011234 0x1000000C &&& 0xF0000000 = 0xF0011234 &&& 0xF0000000 ∧
    (PatchStructVersion 0xF0011234 0x1000000C >>> 16) &&& 0x0FFF
        = ((0xF0011234 : Nat) >>> 16) &&& 0x0FFF :=
  ⟨(patchStructVersion_spec 0xF0011234 0x1000000C).1,
    (patchStructVersion_spec 0xF0011234 0x1000000C).2.1,
    (patchStructVersion_spec 0xF0011234 0x1000000C).2.2 (by decide)⟩

/-! ## Claim C10: the intern cache keys only on the first and fourth
components -/

/-- C10: interning `(A, Bx, Cx, D)` and then `(A, By, Cy, D)` (same first
and fourth components, different second or third) returns the identifier
built from the first tuple both times; the second tuple silently aliases. -/
theorem guidCache_aliases_on_first_and_fourth (A Bx Cx D By Cy : Nat)
    (h : Bx ≠ By ∨ Cx ≠ Cy) :
    (GuidFromComponents [] A Bx Cx D).1 = ⟨A, Bx, Cx, D⟩ ∧
    (GuidFromComponents (GuidFromComponents [] A Bx Cx D).2 A By Cy D).1 = ⟨A, Bx, Cx, D⟩ ∧
    (GuidFromComponents (GuidFromComponents [] A Bx Cx D).2 A By Cy D).1 ≠ ⟨A, By, Cy, D⟩ := by
  refine ⟨rfl, ?_, ?_⟩ <;>
    simp [GuidFromComponents, List.lookup, FGuid.mk.injEq] <;>
    tauto

/-- C10 witness: tuples `(1, 2, 3, 4)` and `(1, 9, 9, 4)`. -/
theorem guidCache_aliases_on_first_and_fourth_witness :
    (GuidFromComponents [] 1 2 3 4).1 = ⟨1, 2, 3, 4⟩ ∧
    (GuidFromComponents (GuidFromComponents [] 1 2 3 4).2 1 9 9 4).1 = ⟨1, 2, 3, 4⟩ ∧
    (GuidFromComponents (GuidFromComponents [] 1 2 3 4).2 1 9 9 4).1 ≠ ⟨1, 9, 9, 4⟩ :=
  guidCache_aliases_on_first_and_fourth 1 2 3 4 9 9 (by decide)

/-! ## Claim C4: the tuning retry ladders -/

/-- C4, counterexample: the initialization-time ladder for preferred tuning
`lossless` tries high-quality before low-latency, and the validation-path
ladder for preferred tuning `undefined` appends a duplicate `undefined` at
the end — both differ from the single ladder the claim describes. -/
theorem tuningLadder_counterexample :
    initializeTuningAttempts NVTuning.lossless ≠ specClaimedTuningAttempts NVTuning.lossless ∧
    validationTuningAttempts NVTuning.undefined ≠ specClaimedTuningAttempts NVTuning.undefined := by
  decide

/-- C4 (amended): both paths try the candidate's preferred tuning first and
stop at the first success, but their fallback orders differ from the claim
and from each other: the validation path continues with low-latency →
high-quality → ultra-low-latency → lossless (skipping values already tried)
and then always appends undefined last, while the initialization path
continues with undefined → high-quality → low-latency → ultra-low-latency →
lossless (skipping values already tried). -/
theorem tuningLadder_spec (preferred t : NVTuning) (ts : List NVTuning)
    (Query : NVTuning → Nat) (acc : Nat) :
    validationTuningAttempts preferred =
      preferred :: (([NVTuning.lowLatency, NVTuning.highQuality,
        NVTuning.ultraLowLatency, NVTuning.lossless].filter (· ≠ preferred))
        ++ [NVTuning.undefined]) ∧
    initializeTuningAttempts preferred =
      preferred :: ([NVTuning.undefined, NVTuning.highQuality, NVTuning.lowLatency,
        NVTuning.ultraLowLatency, NVTuning.lossless].filter (· ≠ preferred)) ∧
    runTuningLadder Query (t :: ts) acc =
      (if Query t = NV_ENC_SUCCESS then NV_ENC_SUCCESS
        else runTuningLadder Query ts (Query t)) := by
  refine ⟨?_, ?_, ?_⟩
  · cases preferred <;> decide
  · cases preferred <;> decide
  · by_cases h : Query t = NV_ENC_SUCCESS <;> simp [runTuningLadder, h]

/-! ## Claim C6: `Reconfigure` preconditions and no partial mutation -/

/-- C6: `Reconfigure` on a session without a completed successful
`Initialize` fails immediately, and every failing `Reconfigure` (including
failure of the underlying `NvEncReconfigureEncoder` call) leaves the stored
encode configuration, initialize-parameters and current parameters
untouched. -/
theorem reconfigure_no_partial_mutation (env : NVENCEnv) (s : SessionState)
    (Parameters : FNVENCParameters) :
    (s.bIsInitialised = false → (ReconfigureRun env s Parameters).1 = false) ∧
    ((ReconfigureRun env s Parameters).1 = false →
      (ReconfigureRun env s Parameters).2.EncodeConfig = s.EncodeConfig ∧
      (ReconfigureRun env s Parameters).2.InitializeParams = s.InitializeParams ∧
      (ReconfigureRun env s Parameters).2.CurrentParameters = s.CurrentParameters) := by
  unfold ReconfigureRun
  by_cases h1 : s.bIsInitialised
  · by_cases h2 : s.FunctionList.nvEncReconfigureEncoder
    · by_cases h3 : env.reconfigureStatus = NV_ENC_SUCCESS <;> simp [h1, h2, h3]
    · simp [h1, h2]
  · simp [h1]

/-- C6 witness: the never-initialised baseline session under the benign
driver. -/
theorem reconfigure_no_partial_mutation_witness :
    (ReconfigureRun benignEnv {} {}).1 = false ∧
    (ReconfigureRun benignEnv {} {}).2.EncodeConfig = ({} : SessionState).EncodeConfig ∧
    (ReconfigureRun benignEnv {} {}).2.InitializeParams = ({} : SessionState).InitializeParams ∧
    (ReconfigureRun benignEnv {} {}).2.CurrentParameters = ({} : SessionState).CurrentParameters :=
  ⟨(reconfigure_no_partial_mutation benignEnv {} {}).1 rfl,
    (reconfigure_no_partial_mutation benignEnv {} {}).2
      ((reconfigure_no_partial_mutation benignEnv {} {}).1 rfl)⟩

/-! ## Claim C9: `Destroy` idempotence and unconditional reset -/

/-- C9: `Destroy` is a no-op on a session that is not open; destroying
twice leaves the state of the first call unchanged; a first `Destroy` on an
open session resets encoder handle, device pointer, both flags, function
table and stored parameters to the closed baseline and restores the
compile-time API version; and the result never depends on the status the
device destruction entry point returns (`env2` may differ from `env` in
every oracle but the compile-time version). -/
theorem destroy_idempotent_reset (env env2 : NVENCEnv) (s : SessionState)
    (hcv : env2.compileApiVersion = env.compileApiVersion) :
    DestroyRun env (DestroyRun env s) = DestroyRun env s ∧
    (s.bIsOpen = false → DestroyRun env s = s) ∧
    (s.bIsOpen = true → DestroyRun env s =
      { s with
        Encoder := none
        Device := none
        bIsInitialised := false
        bIsOpen := false
        FunctionList := emptyFunctionList
        CurrentParameters := {}
        ApiVersion := env.compileApiVersion }) ∧
    DestroyRun env2 s = DestroyRun env s := by
  unfold DestroyRun
  by_cases h : s.bIsOpen <;> simp [h, hcv]

/-- C9 witness: destroying the open fixture session twice under drivers
whose destruction statuses differ. -/
theorem destroy_idempotent_reset_witness :
    DestroyRun benignEnv (DestroyRun benignEnv initialisedSessionState)
        = DestroyRun benignEnv initialisedSessionState ∧
    DestroyRun benignEnv initialisedSessionState =
      { initialisedSessionState with
        Encoder := none
        Device := none
        bIsInitialised := false
        bIsOpen := false
        FunctionList := emptyFunctionList
        CurrentParameters := {}
        ApiVersion := benignEnv.compileApiVersion } ∧
    DestroyRun { benignEnv with destroyEncoderStatus := 9 } initialisedSessionState
        = DestroyRun benignEnv initialisedSessionState :=
  ⟨(destroy_idempotent_reset benignEnv { benignEnv with destroyEncoderStatus := 9 }
      initialisedSessionState rfl).1,
    (destroy_idempotent_reset benignEnv { benignEnv with destroyEncoderStatus := 9 }
      initialisedSessionState rfl).2.2.1 rfl,
    (destroy_idempotent_reset benignEnv { benignEnv with destroyEncoderStatus := 9 }
      initialisedSessionState rfl).2.2.2⟩

/-! ## Claim C8: `GetSequenceParams` buffer sizing -/

/-- C8: for a device whose reported required size is the fixed value `R`
regardless of buffer size, the extraction starts with a 1024-byte buffer;
it makes a second device call — with a buffer of exactly the reported
size — precisely when the first call succeeds and reports `R > 1024`; it
never makes more than two device calls; and on success the returned byte
length equals `R`. -/
theorem getSequenceParams_resize_spec (env : NVENCEnv) (s : SessionState) (R : Nat)
    (hinit : s.bIsInitialised = true) (henc : s.Encoder.isSome = true)
    (hfn : s.FunctionList.nvEncGetSequenceParams = true)
    (hR : ∀ b, (env.seqParamsQuery b).2 = R) :
    ((GetSequenceParamsRun env s).1.ok = true → (GetSequenceParamsRun env s).1.outLength = R) ∧
    (GetSequenceParamsRun env s).1.buffersTried.length ≤ 2 ∧
    ((GetSequenceParamsRun env s).1.buffersTried = [1024, R] ↔
      ((env.seqParamsQuery 1024).1 = NV_ENC_SUCCESS ∧ 1024 < R)) ∧
    ((env.seqParamsQuery 1024).1 = NV_ENC_SUCCESS → R ≠ 0 → R ≤ 1024 →
      (GetSequenceParamsRun env s).1.buffersTried = [1024] ∧
      (GetSequenceParamsRun env s).1.ok = true) := by
  unfold GetSequenceParamsRun
  by_cases h1 : (env.seqParamsQuery 1024).1 = NV_ENC_SUCCESS
  · by_cases h0 : R = 0
    · simp [hinit, henc, hfn, h1, hR, h0]
    · by_cases hbig : 1024 < R
      · by_cases h2 : (env.seqParamsQuery R).1 = NV_ENC_SUCCESS <;>
          simp [hinit, henc, hfn, h1, hR, h0, hbig, h2] <;> omega
      · simp [hinit, henc, hfn, h1, hR, h0, hbig] <;> omega
  · simp [hinit, henc, hfn, h1, hR] <;> omega

/-- C8 witness: the initialised fixture session against a device requiring
2000 bytes — one resize to exactly 2000 and a successful retry. -/
theorem getSequenceParams_resize_spec_witness :
    ((GetSequenceParamsRun largeSeqParamsEnv initialisedSessionState).1.ok = true →
      (GetSequenceParamsRun largeSeqParamsEnv initialisedSessionState).1.outLength = 2000) ∧
    (GetSequenceParamsRun largeSeqParamsEnv initialisedSessionState).1.buffersTried.length ≤ 2 ∧
    ((GetSequenceParamsRun largeSeqParamsEnv initialisedSessionState).1.buffersTried
        = [1024, 2000] ↔
      ((largeSeqParamsEnv.seqParamsQuery 1024).1 = NV_ENC_SUCCESS ∧ 1024 < 2000)) ∧
    ((largeSeqParamsEnv.seqParamsQuery 1024).1 = NV_ENC_SUCCESS → 2000 ≠ 0 → 2000 ≤ 1024 →
      (GetSequenceParamsRun largeSeqParamsEnv initialisedSessionState).1.buffersTried = [1024] ∧
      (GetSequenceParamsRun largeSeqParamsEnv initialisedSessionState).1.ok = true) :=
  getSequenceParams_resize_spec largeSeqParamsEnv initialisedSessionState 2000
    rfl rfl rfl (fun _ => rfl)

/-! ## Claim C7: the minimum-version floor -/

/-- C7: the version-negotiation phase of `Open` fails exactly when the
negotiated version (after the runtime downgrade step) is older than the
minimum-supported floor — the only unrecoverable version-negotiation
outcome — and in that case `Open` returns failure with the session still
closed (open/initialised flags and encoder handle untouched). -/
theorem versionFloor_spec (env : NVENCEnv) (s : SessionState) (Codec : ENVENCCodec)
    (InDevice : Option Nat) (InDeviceType : Nat) (d : Nat)
    (hopen : s.bIsOpen = false) (hdev : InDevice = some d)
    (hload : env.loaderLoads = true) :
    (versionNegotiationPhase env = none ↔
      IsVersionOlder (negotiatedApiVersion env).1 GetMinimumAPIVersion = true) ∧
    (IsVersionOlder (negotiatedApiVersion env).1 GetMinimumAPIVersion = true →
      (OpenRun env s Codec InDevice InDeviceType).1 = false ∧
      (OpenRun env s Codec InDevice InDeviceType).2.bIsOpen = false ∧
      (OpenRun env s Codec InDevice InDeviceType).2.bIsInitialised = s.bIsInitialised ∧
      (OpenRun env s Codec InDevice InDeviceType).2.Encoder = s.Encoder) := by
  constructor
  · unfold versionNegotiationPhase
    by_cases h : IsVersionOlder (negotiatedApiVersion env).1 GetMinimumAPIVersion <;> simp [h]
  · intro h
    unfold OpenRun
    simp [hopen, hdev, hload, h]

/-- C7 witness: a runtime reporting legacy-encoded version `0xC` (decoded
0.12) forces a downgrade below the 1.0 floor; `Open` on the closed baseline
session fails and the session stays closed. -/
theorem versionFloor_spec_witness :
    (versionNegotiationPhase lowVersionEnv = none ↔
      IsVersionOlder (negotiatedApiVersion lowVersionEnv).1 GetMinimumAPIVersion = true) ∧
    ((OpenRun lowVersionEnv {} ENVENCCodec.H264 (some 7) NV_ENC_DEVICE_TYPE_CUDA).1 = false ∧
      (OpenRun lowVersionEnv {} ENVENCCodec.H264 (some 7) NV_ENC_DEVICE_TYPE_CUDA).2.bIsOpen
        = false ∧
      (OpenRun lowVersionEnv {} ENVENCCodec.H264 (some 7)
        NV_ENC_DEVICE_TYPE_CUDA).2.bIsInitialised = ({} : SessionState).bIsInitialised ∧
      (OpenRun lowVersionEnv {} ENVENCCodec.H264 (some 7) NV_ENC_DEVICE_TYPE_CUDA).2.Encoder
        = ({} : SessionState).Encoder) :=
  ⟨(versionFloor_spec lowVersionEnv {} ENVENCCodec.H264 (some 7) NV_ENC_DEVICE_TYPE_CUDA 7
      rfl rfl rfl).1,
    (versionFloor_spec lowVersionEnv {} ENVENCCodec.H264 (some 7) NV_ENC_DEVICE_TYPE_CUDA 7
      rfl rfl rfl).2 (by decide)⟩

/-! ## Claim C1: invalid-encoder-device policy in the two candidate scans -/

/-- C1, counterexample: with a driver that answers invalid-encoder-device
for the default preset and success for every other preset, the lightweight
post-open validation (as invoked by `Open`) *succeeds* — it skips the
rejected candidate and continues — while the initialization-time selection
*aborts* and fails on the same driver.  The claim asserts exactly the
opposite behaviour for both paths. -/
theorem invalidDevicePolicy_counterexample :
    (ValidatePresetConfigurationRun invalidDefaultPresetEnv openSessionState
        ENVENCCodec.H264 false).1 = true ∧
    (InitializeRun invalidDefaultPresetEnv openSessionState {}).1 = false :=
  ⟨rfl, rfl⟩

/-- C1 (amended): the policies are the reverse of the claim.  In
`ValidatePresetConfiguration` a candidate whose query fails with
invalid-encoder-device is skipped and the scan continues with the next
candidate; in `Initialize` a candidate whose (post null-handle-retry) query
fails with invalid-encoder-device aborts the entire candidate scan. -/
theorem invalidDevicePolicy_swapped (env : NVENCEnv) (hasEx : Bool) (cg : FGuid)
    (Handle : Option Nat) (p : FValidationPreset) (rest : List FValidationPreset)
    (c : FPresetCandidate) (crest : List FPresetCandidate) (acc acc2 : Nat)
    (hv : queryPresetValidation env hasEx cg Handle p.Guid p.PreferredTuning
      = NV_ENC_ERR_INVALID_ENCODERDEVICE)
    (hi : queryPresetConfigInit env hasEx cg Handle c = NV_ENC_ERR_INVALID_ENCODERDEVICE)
    (hin : queryPresetConfigInit env hasEx cg none c = NV_ENC_ERR_INVALID_ENCODERDEVICE) :
    validatePresetScan env hasEx cg Handle false (p :: rest) acc
      = validatePresetScan env hasEx cg Handle false rest NV_ENC_ERR_INVALID_ENCODERDEVICE ∧
    initializePresetScan env hasEx cg Handle (c :: crest) acc2
      = (none, NV_ENC_ERR_INVALID_ENCODERDEVICE) := by
  constructor
  · simp [validatePresetScan, hv, NV_ENC_SUCCESS, NV_ENC_ERR_INVALID_PARAM,
      NV_ENC_ERR_UNSUPPORTED_PARAM, NV_ENC_ERR_INVALID_ENCODERDEVICE]
  · cases Handle <;>
      simp [initializePresetScan, hi, hin, NV_ENC_SUCCESS,
        NV_ENC_ERR_INVALID_PARAM, NV_ENC_ERR_INVALID_ENCODERDEVICE]

/-- C1 witness: the swapped policies at the default-preset candidate under
the invalid-device driver. -/
theorem invalidDevicePolicy_swapped_witness :
    validatePresetScan invalidDefaultPresetEnv false (CodecGuid ENVENCCodec.H264) (some 0)
        false [⟨PresetDefaultGuid, NVTuning.undefined, "NV_ENC_PRESET_DEFAULT"⟩] 0
      = validatePresetScan invalidDefaultPresetEnv false (CodecGuid ENVENCCodec.H264) (some 0)
          false [] NV_ENC_ERR_INVALID_ENCODERDEVICE ∧
    initializePresetScan invalidDefaultPresetEnv false (CodecGuid ENVENCCodec.H264) (some 0)
        [⟨PresetDefaultGuid, NVTuning.undefined, "NV_ENC_PRESET_DEFAULT"⟩] 0
      = (none, NV_ENC_ERR_INVALID_ENCODERDEVICE) :=
  invalidDevicePolicy_swapped invalidDefaultPresetEnv false (CodecGuid ENVENCCodec.H264)
    (some 0) ⟨PresetDefaultGuid, NVTuning.undefined, "NV_ENC_PRESET_DEFAULT"⟩ []
    ⟨PresetDefaultGuid, NVTuning.undefined, "NV_ENC_PRESET_DEFAULT"⟩ [] 0 0
    (by decide) (by decide) (by decide)

/-! ## Claim C5: the last-error discipline -/

theorem append_ne_empty_left (a b : String) (h : a.data ≠ []) : a ++ b ≠ "" := by
  intro hc
  apply h
  have hd := congrArg String.data hc
  rw [String.data_append] at hd
  exact (List.append_eq_nil.mp hd).1

theorem validateRun_lastError (env : NVENCEnv) (s : SessionState) (Codec : ENVENCCodec)
    (allowNull : Bool) :
    ((ValidatePresetConfigurationRun env s Codec allowNull).1 = false →
      (ValidatePresetConfigurationRun env s Codec allowNull).2.LastErrorMessage ≠ "") ∧
    ((ValidatePresetConfigurationRun env s Codec allowNull).1 = true →
      (ValidatePresetConfigurationRun env s Codec allowNull).2.LastErrorMessage = "") := by
  unfold ValidatePresetConfigurationRun
  by_cases h1 : (s.bIsOpen ∧ s.Encoder.isSome)
  · by_cases h2 : s.FunctionList.nvEncGetEncodePresetConfig
    · by_cases h3 : (validatePresetScan env s.FunctionList.nvEncGetEncodePresetConfigEx
          (CodecGuid Codec) s.Encoder allowNull validationPresets
          NV_ENC_ERR_NO_ENCODE_DEVICE).1
      · simp [h1, h2, h3]
      · by_cases h4 : (validatePresetScan env s.FunctionList.nvEncGetEncodePresetConfigEx
            (CodecGuid Codec) s.Encoder allowNull validationPresets
            NV_ENC_ERR_NO_ENCODE_DEVICE).2 = NV_ENC_ERR_INVALID_ENCODERDEVICE <;>
          simp [h1, h2, h3, h4] <;>
          (apply append_ne_empty_left; decide)
    · simp [h1, h2]
  · simp [h1]

theorem destroyRun_lastError (env : NVENCEnv) (x : SessionState) :
    (DestroyRun env x).LastErrorMessage = x.LastErrorMessage := by
  unfold DestroyRun
  split <;> rfl

set_option maxHeartbeats 1000000 in
theorem initializeRun_lastError (env : NVENCEnv) (s : SessionState)
    (Parameters : FNVENCParameters) :
    ((InitializeRun env s Parameters).1 = false →
      (InitializeRun env s Parameters).2.LastErrorMessage ≠ "") ∧
    ((InitializeRun env s Parameters).1 = true →
      (InitializeRun env s Parameters).2.LastErrorMessage = "") := by
  unfold InitializeRun
  by_cases h1 : (s.bIsOpen ∧ s.Encoder.isSome)
  · by_cases h2 : s.FunctionList.nvEncGetEncodePresetConfig
    · by_cases h3 : s.FunctionList.nvEncInitializeEncoder
      · rcases hsel : (initializePresetScan env s.FunctionList.nvEncGetEncodePresetConfigEx
            (CodecGuid Parameters.Codec) s.Encoder
            (appendRuntimePresets env s.FunctionList
              (promoteRequestedPreset initialPresetCandidates Parameters))
            NV_ENC_SUCCESS) with ⟨sel, lastst⟩
        rcases sel with _ | c
        · by_cases h4 : lastst = NV_ENC_ERR_INVALID_ENCODERDEVICE <;>
            simp [h1, h2, h3, hsel, h4] <;>
            (apply append_ne_empty_left; decide)
        · by_cases h5 : env.initializeEncoderStatus = NV_ENC_SUCCESS <;>
            simp [h1, h2, h3, hsel, h5] <;>
            (apply append_ne_empty_left; decide)
      · simp [h1, h2, h3]
    · simp [h1, h2]
  · simp [h1]

set_option maxHeartbeats 1000000 in
theorem openRun_lastError (env : NVENCEnv) (s : SessionState) (Codec : ENVENCCodec)
    (InDevice : Option Nat) (InDeviceType : Nat) :
    ((OpenRun env s Codec InDevice InDeviceType).1 = false →
      (OpenRun env s Codec InDevice InDeviceType).2.LastErrorMessage ≠ "") ∧
    ((OpenRun env s Codec InDevice InDeviceType).1 = true →
      (OpenRun env s Codec InDevice InDeviceType).2.LastErrorMessage = "") := by
  unfold OpenRun
  by_cases h0 : s.bIsOpen
  · simp [h0]
  · by_cases hd : InDevice = none
    · simp [h0, hd]
    · by_cases hl : env.loaderLoads
      · by_cases hfl : IsVersionOlder (negotiatedApiVersion env).1 GetMinimumAPIVersion
        · simp [h0, hd, hl, hfl]
        · by_cases hci : env.hasCreateInstance
          · by_cases hcs : env.createInstanceStatus = NV_ENC_SUCCESS
            · by_cases hox : env.functionList.nvEncOpenEncodeSessionEx
              · rcases hscan : (openSessionScan env.openSessionStatus
                    (BuildDeviceTypeCandidates InDeviceType) NV_ENC_ERR_INVALID_PARAM)
                  with ⟨osel, olast⟩
                rcases osel with _ | dt
                · simp [h0, hd, hl, hfl, hci, hcs, hox, hscan] <;>
                    (apply append_ne_empty_left; decide)
                · simp [h0, hd, hl, hfl, hci, hcs, hox, hscan]
                  split
                  · next hv =>
                    refine ⟨fun hfalse => by simp at hfalse, fun _ => ?_⟩
                    exact (validateRun_lastError env _ Codec false).2 hv
                  · next hv =>
                    refine ⟨fun _ => ?_, fun htrue => by simp at htrue⟩
                    rw [destroyRun_lastError]
                    exact (validateRun_lastError env _ Codec false).1 (by simpa using hv)
              · simp [h0, hd, hl, hfl, hci, hcs, hox]
            · simp [h0, hd, hl, hfl, hci, hcs] <;> (apply append_ne_empty_left; decide)
          · simp [h0, hd, hl, hfl, hci]
      · simp [h0, hd, hl]

theorem reconfigureRun_lastError (env : NVENCEnv) (s : SessionState)
    (Parameters : FNVENCParameters) :
    ((ReconfigureRun env s Parameters).1 = false →
      (ReconfigureRun env s Parameters).2.LastErrorMessage ≠ "") ∧
    ((ReconfigureRun env s Parameters).1 = true →
      (ReconfigureRun env s Parameters).2.LastErrorMessage = "") := by
  unfold ReconfigureRun
  by_cases h1 : s.bIsInitialised
  · by_cases h2 : s.FunctionList.nvEncReconfigureEncoder
    · by_cases h3 : env.reconfigureStatus = NV_ENC_SUCCESS <;>
        simp [h1, h2, h3] <;> (apply append_ne_empty_left; decide)
    · simp [h1, h2]
  · simp [h1]

theorem getSequenceParamsRun_state (env : NVENCEnv) (s : SessionState) :
    (GetSequenceParamsRun env s).2 = s := by
  unfold GetSequenceParamsRun
  by_cases h1 : (s.bIsInitialised ∧ s.Encoder.isSome)
  · by_cases h2 : s.FunctionList.nvEncGetSequenceParams
    · by_cases h3 : (env.seqParamsQuery 1024).1 = NV_ENC_SUCCESS
      · by_cases h4 : (env.seqParamsQuery 1024).2 = 0
        · simp [h1, h2, h3, h4]
        · by_cases h5 : 1024 < (env.seqParamsQuery 1024).2
          · by_cases h6 : (env.seqParamsQuery (env.seqParamsQuery 1024).2).1
                = NV_ENC_SUCCESS <;>
              simp [h1, h2, h3, h4, h5, h6]
          · simp [h1, h2, h3, h4, h5]
      · simp [h1, h2, h3]
    · simp [h1, h2]
  · simp [h1]

/-- C5, counterexample: `GetSequenceParams` on a never-initialised session
returns boolean failure yet leaves the last-error string empty — the caller
cannot query any failure description, refuting "this includes
`GetSequenceParams` returning false" (the function neither clears nor sets
the last-error). -/
theorem lastError_getSequenceParams_counterexample :
    (GetSequenceParamsRun benignEnv {}).1.ok = false ∧
    (GetSequenceParamsRun benignEnv {}).2.LastErrorMessage = "" :=
  ⟨rfl, rfl⟩

/-- C5 (amended): `Open`, `ValidatePresetConfiguration`, `Initialize` and
`Reconfigure` clear the last-error at the start and set a non-empty
description on every boolean failure (and leave it empty on success);
`GetSequenceParams` is the exception — it never touches the session state,
so its failures leave the previous last-error (possibly empty) in place. -/
theorem lastError_discipline (env : NVENCEnv) (s : SessionState) (Codec : ENVENCCodec)
    (InDevice : Option Nat) (InDeviceType : Nat) (Parameters : FNVENCParameters)
    (allowNull : Bool) :
    ((OpenRun env s Codec InDevice InDeviceType).1 = false →
      (OpenRun env s Codec InDevice InDeviceType).2.LastErrorMessage ≠ "") ∧
    ((OpenRun env s Codec InDevice InDeviceType).1 = true →
      (OpenRun env s Codec InDevice InDeviceType).2.LastErrorMessage = "") ∧
    ((ValidatePresetConfigurationRun env s Codec allowNull).1 = false →
      (ValidatePresetConfigurationRun env s Codec allowNull).2.LastErrorMessage ≠ "") ∧
    ((ValidatePresetConfigurationRun env s Codec allowNull).1 = true →
      (ValidatePresetConfigurationRun env s Codec allowNull).2.LastErrorMessage = "") ∧
    ((InitializeRun env s Parameters).1 = false →
      (InitializeRun env s Parameters).2.LastErrorMessage ≠ "") ∧
    ((InitializeRun env s Parameters).1 = true →
      (InitializeRun env s Parameters).2.LastErrorMessage = "") ∧
    ((ReconfigureRun env s Parameters).1 = false →
      (ReconfigureRun env s Parameters).2.LastErrorMessage ≠ "") ∧
    ((ReconfigureRun env s Parameters).1 = true →
      (ReconfigureRun env s Parameters).2.LastErrorMessage = "") ∧
    (GetSequenceParamsRun env s).2 = s :=
  ⟨(openRun_lastError env s Codec InDevice InDeviceType).1,
    (openRun_lastError env s Codec InDevice InDeviceType).2,
    (validateRun_lastError env s Codec allowNull).1,
    (validateRun_lastError env s Codec allowNull).2,
    (initializeRun_lastError env s Parameters).1,
    (initializeRun_lastError env s Parameters).2,
    (reconfigureRun_lastError env s Parameters).1,
    (reconfigureRun_lastError env s Parameters).2,
    getSequenceParamsRun_state env s⟩

/-- C5 witness: on the closed baseline session every operation fails and
reports a non-empty description, while `GetSequenceParams` leaves the state
untouched. -/
theorem lastError_discipline_witness :
    (OpenRun benignEnv {} ENVENCCodec.H264 none 0).2.LastErrorMessage ≠ "" ∧
    (ValidatePresetConfigurationRun benignEnv {} ENVENCCodec.H264
      false).2.LastErrorMessage ≠ "" ∧
    (InitializeRun benignEnv {} {}).2.LastErrorMessage ≠ "" ∧
    (ReconfigureRun benignEnv {} {}).2.LastErrorMessage ≠ "" ∧
    (GetSequenceParamsRun benignEnv {}).2 = ({} : SessionState) := by
  have h := lastError_discipline benignEnv {} ENVENCCodec.H264 none 0 {} false
  exact ⟨h.1 rfl, h.2.2.1 rfl, h.2.2.2.2.1 rfl, h.2.2.2.2.2.2.1 rfl,
    h.2.2.2.2.2.2.2.2⟩

/-! ## Claim C3: the device-type candidate list of `Open` -/

/-- C3, counterexample: for the hint `NV_ENC_DEVICE_TYPE_DIRECTX` the
candidate list is `[DirectX11, DirectX]` — the caller's hint is *not* the
first candidate (the DirectX11 alternate is unconditionally promoted in
front of it). -/
theorem openCandidates_counterexample :
    (BuildDeviceTypeCandidates NV_ENC_DEVICE_TYPE_DIRECTX).head? ≠
      some NV_ENC_DEVICE_TYPE_DIRECTX := by
  decide

/-- C3 (amended): the candidate list is ordered and de-duplicated, but for
both DirectX-family hints it is `[DirectX11, DirectX]` — so the hint leads
only when it is the DirectX11 tag — and for any other hint it is just the
hint itself; `Open` attempts the candidates in order, stops at the first
success, and records the device type of the succeeding candidate: with hint
DirectX11 on a device that only accepts the plain DirectX tag, `Open`
succeeds and records DirectX. -/
theorem openCandidates_spec (anyHint hint d : Nat) (env : NVENCEnv) (s : SessionState)
    (Codec : ENVENCCodec) (OpenStatus : Nat → Nat) (c acc : Nat) (rest : List Nat)
    (hhint1 : hint ≠ NV_ENC_DEVICE_TYPE_DIRECTX) (hhint2 : hint ≠ DirectX11DeviceType)
    (hopen : s.bIsOpen = false)
    (hload : env.loaderLoads = true)
    (hfl : IsVersionOlder (negotiatedApiVersion env).1 GetMinimumAPIVersion = false)
    (hci : env.hasCreateInstance = true) (hcs : env.createInstanceStatus = NV_ENC_SUCCESS)
    (hox : env.functionList.nvEncOpenEncodeSessionEx = true)
    (hpc : env.functionList.nvEncGetEncodePresetConfig = true)
    (hdx11 : env.openSessionStatus DirectX11DeviceType ≠ NV_ENC_SUCCESS)
    (hdx : env.openSessionStatus NV_ENC_DEVICE_TYPE_DIRECTX = NV_ENC_SUCCESS)
    (hq : ∀ h cg pg, env.getPresetConfig h cg pg = NV_ENC_SUCCESS) :
    BuildDeviceTypeCandidates DirectX11DeviceType
      = [DirectX11DeviceType, NV_ENC_DEVICE_TYPE_DIRECTX] ∧
    BuildDeviceTypeCandidates NV_ENC_DEVICE_TYPE_DIRECTX
      = [DirectX11DeviceType, NV_ENC_DEVICE_TYPE_DIRECTX] ∧
    BuildDeviceTypeCandidates hint = [hint] ∧
    (BuildDeviceTypeCandidates anyHint).Nodup ∧
    openSessionScan OpenStatus (c :: rest) acc =
      (if OpenStatus c = NV_ENC_SUCCESS then (some c, OpenStatus c)
        else openSessionScan OpenStatus rest (OpenStatus c)) ∧
    ((OpenRun env s Codec (some d) DirectX11DeviceType).1 = true ∧
      (OpenRun env s Codec (some d) DirectX11DeviceType).2.DeviceType
        = NV_ENC_DEVICE_TYPE_DIRECTX ∧
      (OpenRun env s Codec (some d) DirectX11DeviceType).2.bIsOpen = true) := by
  have hb : BuildDeviceTypeCandidates DirectX11DeviceType
      = [DirectX11DeviceType, NV_ENC_DEVICE_TYPE_DIRECTX] := by decide
  refine ⟨hb, by decide, ?_, ?_, ?_, ?_⟩
  · simp [BuildDeviceTypeCandidates, TryAddCandidate, hhint1, hhint2]
  · by_cases a0 : anyHint = NV_ENC_DEVICE_TYPE_DIRECTX
    · subst a0; decide
    · by_cases a3 : anyHint = DirectX11DeviceType
      · subst a3; decide
      · simp [BuildDeviceTypeCandidates, TryAddCandidate, a0, a3]
  · by_cases h : OpenStatus c = NV_ENC_SUCCESS <;> simp [openSessionScan, h]
  · unfold OpenRun
    simp [hopen, hload, hfl, hci, hcs, hox, hb, openSessionScan, hdx11, hdx,
      ValidatePresetConfigurationRun, validatePresetScan, queryPresetValidation,
      validationPresets, hq, hpc]

/-- C3 witness: hint CUDA for the singleton-list conjunct, and the
DirectX11-hint scenario against a device accepting only the plain DirectX
tag. -/
theorem openCandidates_spec_witness :
    BuildDeviceTypeCandidates DirectX11DeviceType
      = [DirectX11DeviceType, NV_ENC_DEVICE_TYPE_DIRECTX] ∧
    BuildDeviceTypeCandidates NV_ENC_DEVICE_TYPE_DIRECTX
      = [DirectX11DeviceType, NV_ENC_DEVICE_TYPE_DIRECTX] ∧
    BuildDeviceTypeCandidates NV_ENC_DEVICE_TYPE_CUDA = [NV_ENC_DEVICE_TYPE_CUDA] ∧
    (BuildDeviceTypeCandidates 5).Nodup ∧
    openSessionScan directXOnlyEnv.openSessionStatus (2 :: []) 5 =
      (if directXOnlyEnv.openSessionStatus 2 = NV_ENC_SUCCESS
        then (some 2, directXOnlyEnv.openSessionStatus 2)
        else openSessionScan directXOnlyEnv.openSessionStatus []
          (directXOnlyEnv.openSessionStatus 2)) ∧
    ((OpenRun directXOnlyEnv {} ENVENCCodec.H264 (some 7) DirectX11DeviceType).1 = true ∧
      (OpenRun directXOnlyEnv {} ENVENCCodec.H264 (some 7)
        DirectX11DeviceType).2.DeviceType = NV_ENC_DEVICE_TYPE_DIRECTX ∧
      (OpenRun directXOnlyEnv {} ENVENCCodec.H264 (some 7)
        DirectX11DeviceType).2.bIsOpen = true) :=
  openCandidates_spec 5 NV_ENC_DEVICE_TYPE_CUDA 7 directXOnlyEnv {} ENVENCCodec.H264
    directXOnlyEnv.openSessionStatus 2 5 [] (by decide) (by decide) rfl rfl (by decide)
    rfl rfl rfl rfl (by decide) rfl (fun _ _ _ => rfl)
